import Mathlib

/-!
Shallow embedding of the DLNA-Tester compliance client (dlna_tester/tester.py
and dlna_tester/tests.py) and proofs about its scoring engine, DIDL-Lite
parsing, Content Directory client and bounded tree traversal.

Modelling conventions:
- Python floats that only ever hold sums and halves of small literals are
  modelled as rational numbers.
- The remote server and the external libraries (httpx, lxml, html) are
  modelled as a World oracle: every HTTP operation is a function from the
  request data to an optional response, where the absent value models a
  raised exception.  XML documents are modelled by an explicit element tree.
- Timings and exception texts are not modelled; messages that interpolate
  them use the static part of the format string.
-/

/-- Status of a test result (tests.py, TestStatus). -/
inductive TestStatus where
  | PASS
  | FAIL
  | WARN
  | SKIP
deriving DecidableEq, Repr

/-- Categories of compliance tests (tests.py, TestCategory). -/
inductive TestCategory where
  | CONNECTIVITY
  | DEVICE_DESCRIPTION
  | CONTENT_DIRECTORY
  | CONNECTION_MANAGER
  | BROWSING
  | METADATA
  | MEDIA_RESOURCES
  | PROTOCOL_COMPLIANCE
deriving DecidableEq, Repr

/-- Values stored in the free-form details mapping of a test result. -/
inductive DetailValue where
  | str (v : String)
  | int (v : Int)
  | rat (v : ℚ)
  | strList (v : List String)
  | optStr (v : Option String)
deriving DecidableEq, Repr

/-- Result of a single compliance test (tests.py, TestResult). -/
structure TestResult where
  name : String
  category : TestCategory
  status : TestStatus
  message : String
  details : List (String × DetailValue)
  weight : ℚ
deriving DecidableEq, Repr

/-- Score contribution of a result (tests.py, TestResult.score). -/
def TestResult.score (r : TestResult) : ℚ :=
  if r.status = TestStatus.PASS then r.weight
  else if r.status = TestStatus.WARN then r.weight * (1 / 2)
  else 0

/-- Total score over a result list (first summand of TestSuite.get_score). -/
def totalScore (results : List TestResult) : ℚ :=
  (results.map TestResult.score).sum

/-- Maximum score: sum of the weights of the non-SKIP results
(second summand of TestSuite.get_score). -/
def maxScore (results : List TestResult) : ℚ :=
  ((results.filter (fun r => r.status ≠ TestStatus.SKIP)).map TestResult.weight).sum

/-- Percentage as computed inside TestSuite.get_score: zero when the maximum
score is zero, otherwise total over maximum times 100. -/
def percentage (results : List TestResult) : ℚ :=
  if maxScore results = 0 then 0 else totalScore results / maxScore results * 100

/-- Grade chosen from a percentage by the if-elif chain in
TestSuite.get_score; every threshold is an inclusive lower bound. -/
def gradeOf (p : ℚ) : String :=
  if 95 ≤ p then "A+"
  else if 90 ≤ p then "A"
  else if 85 ≤ p then "B+"
  else if 80 ≤ p then "B"
  else if 75 ≤ p then "C+"
  else if 70 ≤ p then "C"
  else if 60 ≤ p then "D"
  else "F"

/-- TestSuite.get_score: returns the triple of total score, maximum score and
grade. -/
def get_score (results : List TestResult) : ℚ × ℚ × String :=
  (totalScore results, maxScore results, gradeOf (percentage results))

/-- Summary of a suite run (tests.py, TestSuite.get_summary).  The
by-category breakdown of the source dictionary is presentation data and is
not modelled. -/
structure Summary where
  total : Nat
  passed : Nat
  failed : Nat
  warned : Nat
  skipped : Nat
  score : ℚ
  max_score : ℚ
  percent : ℚ
  grade : String
deriving DecidableEq, Repr

/-- TestSuite.get_summary. -/
def get_summary (results : List TestResult) : Summary :=
  { total := results.length
    passed := (results.filter (fun r => r.status = TestStatus.PASS)).length
    failed := (results.filter (fun r => r.status = TestStatus.FAIL)).length
    warned := (results.filter (fun r => r.status = TestStatus.WARN)).length
    skipped := (results.filter (fun r => r.status = TestStatus.SKIP)).length
    score := totalScore results
    max_score := maxScore results
    percent :=
      if 0 < maxScore results then totalScore results / maxScore results * 100 else 0
    grade := (get_score results).2.2 }

/-- Membership of a pattern string inside a text string, as the Python
containment operator on strings. -/
def strContains (s sub : String) : Bool :=
  (List.range (s.data.length + 1)).any (fun i => sub.data.isPrefixOf (s.data.drop i))

/-- Numeric value of a list of decimal digit characters. -/
def natFromDigits (cs : List Char) : Nat :=
  cs.foldl (fun a c => a * 10 + (c.toNat - 48)) 0

/-- Python str.split with a one-character separator, over character lists.
Both split calls in the source use a one-character separator. -/
def splitOnChar (sep : Char) : List Char → List (List Char)
  | [] => [[]]
  | c :: rest =>
    let r := splitOnChar sep rest
    if c = sep then [] :: r
    else
      match r with
      | [] => [[c]]
      | h :: t => (c :: h) :: t

/-- Python str.split with a one-character separator, on strings. -/
def pySplit (s : String) (sep : Char) : List String :=
  (splitOnChar sep s.data).map String.mk

/-- Python str.startswith. -/
def strStartsWith (s pre : String) : Bool :=
  pre.data.isPrefixOf s.data

/-- Python str.lower restricted to ASCII case mapping. -/
def strToLower (s : String) : String :=
  String.mk (s.data.map Char.toLower)

/-- Python str.strip with no argument: drop surrounding whitespace.  Only the
four ASCII whitespace characters of Char.isWhitespace are modelled. -/
def pyStrip (cs : List Char) : List Char :=
  ((cs.dropWhile Char.isWhitespace).reverse.dropWhile Char.isWhitespace).reverse

/-- Python int() applied to a string: optional surrounding whitespace, an
optional sign, then a nonempty run of decimal digits; any other string raises
ValueError, modelled as the absent value.  Underscore digit separators and
non-ASCII digits accepted by Python are not modelled. -/
def pyInt (s : String) : Option Int :=
  match pyStrip s.data with
  | [] => none
  | c :: rest =>
    let signed : Int × List Char :=
      if c = '+' then (1, rest) else if c = '-' then (-1, rest) else (1, c :: rest)
    if signed.2 ≠ [] ∧ signed.2.all Char.isDigit then
      some (signed.1 * (natFromDigits signed.2 : Int))
    else none

/-- XML element tree: tag (with the namespace URI folded into the tag text as
lxml does), attributes, optional text and child elements in document order. -/
inductive Elem where
  | node (tag : String) (attrs : List (String × String)) (text : Option String)
      (children : List Elem)
deriving Repr

/-- Tag of an element. -/
def Elem.tag : Elem → String
  | .node t _ _ _ => t

/-- Attribute list of an element. -/
def Elem.attrs : Elem → List (String × String)
  | .node _ a _ _ => a

/-- Text of an element; the absent value models a lxml text of None. -/
def Elem.text : Elem → Option String
  | .node _ _ t _ => t

/-- Children of an element in document order. -/
def Elem.children : Elem → List Elem
  | .node _ _ _ cs => cs

/-- Attribute lookup, as Element.get with no default. -/
def Elem.get (e : Elem) (name : String) : Option String :=
  (e.attrs.lookup name)

/-- Attribute lookup with a default, as Element.get with a default. -/
def Elem.getD (e : Elem) (name dflt : String) : String :=
  (e.get name).getD dflt

mutual
/-- All proper descendants of an element in document (preorder) order; this
is the set of elements that a findall of a .// path ranges over. -/
def Elem.descendants : Elem → List Elem
  | .node _ _ _ cs => descendantsList cs

/-- Descendants of a forest of elements, in document order. -/
def descendantsList : List Elem → List Elem
  | [] => []
  | e :: es => e :: (Elem.descendants e ++ descendantsList es)
end

/-- Element.findall with a .//tag path: all descendants with the given tag,
in document order. -/
def Elem.findallDesc (e : Elem) (t : String) : List Elem :=
  e.descendants.filter (fun d => d.tag = t)

/-- Element.find with a .//tag path: the first descendant with the given
tag, in document order. -/
def Elem.findDesc (e : Elem) (t : String) : Option Elem :=
  (e.findallDesc t).head?

/-- Element.findall with a plain tag path: the children with that tag. -/
def Elem.findallChild (e : Elem) (t : String) : List Elem :=
  e.children.filter (fun d => d.tag = t)

/-- Element.find with a plain tag path: the first child with that tag. -/
def Elem.findChild (e : Elem) (t : String) : Option Elem :=
  (e.findallChild t).head?

/-- Fully qualified tag text for a namespace URI and a local name, matching
the lxml representation. -/
def qn (ns local_name : String) : String :=
  "\x7b" ++ ns ++ "\x7d" ++ local_name

/-- Namespace URI bound to the upnp key of the NS table in tester.py. -/
def nsUpnpDev : String := "urn:schemas-upnp-org:device-1-0"

/-- Namespace URI bound to the service key of the NS table. -/
def nsServiceDesc : String := "urn:schemas-upnp-org:service-1-0"

/-- Namespace URI bound to the soap key of the NS table. -/
def nsSoapEnv : String := "http://schemas.xmlsoap.org/soap/envelope/"

/-- Namespace URI bound to the didl key of the NS table. -/
def nsDidl : String := "urn:schemas-upnp-org:metadata-1-0/DIDL-Lite/"

/-- Namespace URI bound to the dc key of the NS table. -/
def nsDc : String := "http://purl.org/dc/elements/1.1/"

/-- Namespace URI bound to the upnp_meta key of the NS table. -/
def nsUpnpMeta : String := "urn:schemas-upnp-org:metadata-1-0/upnp/"

/-- ContentDirectory service namespace written literally in tester.py. -/
def nsCDS : String := "urn:schemas-upnp-org:service:ContentDirectory:1"

/-- ConnectionManager service namespace written literally in tester.py. -/
def nsCMS : String := "urn:schemas-upnp-org:service:ConnectionManager:1"

/-- Information about a UPnP service (tester.py, ServiceInfo).  A state
variable record holds name, data type and the sendEvents attribute. -/
structure ServiceInfo where
  service_type : String
  service_id : String
  scpd_url : String
  control_url : String
  event_sub_url : String
  actions : List String
  state_variables : List (Option String × Option String × String)
deriving DecidableEq, Repr

/-- Device icon record built by fetch_device_description. -/
structure Icon where
  mimetype : String
  width : String
  height : String
  depth : String
  url : String
deriving DecidableEq, Repr

/-- Information about a UPnP device (tester.py, DeviceInfo). -/
structure DeviceInfo where
  device_type : String
  friendly_name : String
  manufacturer : String
  manufacturer_url : Option String
  model_name : String
  model_description : Option String
  model_number : Option String
  model_url : Option String
  serial_number : Option String
  udn : String
  presentation_url : Option String
  services : List ServiceInfo
  icons : List Icon
deriving DecidableEq, Repr

/-- A media item or container from DIDL-Lite (tester.py, MediaItem).  A
resource is the dictionary built per res element: key-value pairs in
insertion order with absent attributes removed; metadata likewise. -/
structure MediaItem where
  id : String
  parent_id : String
  title : String
  itemClass : String
  restricted : Bool
  resources : List (List (String × String))
  metadata : List (String × String)
  is_container : Bool
  child_count : Option Int
deriving DecidableEq, Repr

/-- Truthiness of an optional string, as Python evaluates it in a boolean
context: present and nonempty. -/
def truthy (o : Option String) : Bool :=
  match o with
  | some s => s ≠ ""
  | none => false

/-- An HTTP response: status code, body text, the XML parse of the body
(absent when lxml would fail to parse it) and the Content-Type header. -/
structure HttpResp where
  status : Nat
  text : String
  xml : Option Elem
  contentType : Option String

/-- The environment of a test run: the base URL and one oracle per external
operation.  An absent response models a raised exception.  The post oracle is
keyed by resolved control URL, service type, action name and argument list,
which together determine the SOAP envelope built by _soap_request.  The
parseXml oracle models etree.fromstring on embedded DIDL text and unescape
models html.unescape. -/
structure World where
  baseUrl : String
  get : String → Option HttpResp
  head : String → Option HttpResp
  post : String → String → String → List (String × String) → Option HttpResp
  rangeGet : String → Option HttpResp
  rangeGet4k : String → Option Nat
  parseXml : String → Option Elem
  unescape : String → String

/-- Session state of DLNATester: the discovered description URL, the cached
ContentDirectory and ConnectionManager services and the parsed device. -/
structure TesterState where
  device_description_url : Option String
  content_directory : Option ServiceInfo
  connection_manager : Option ServiceInfo
  device_info : Option DeviceInfo
deriving DecidableEq, Repr

/-- A fresh session, as DLNATester.__init__ leaves it. -/
def initTester : TesterState :=
  ⟨none, none, none, none⟩

/-- DLNATester._make_url: absolute URLs pass through unchanged; relative
paths are resolved against the base URL.  The urljoin resolution is modelled
as concatenation, since URLs act only as opaque keys into the World. -/
def make_url (base path : String) : String :=
  if strStartsWith path "http://" ∨ strStartsWith path "https://" then path
  else base ++ path

/-- Successful HTTP statuses: raise_for_status passes exactly on 2xx. -/
def is2xx (n : Nat) : Bool :=
  200 ≤ n ∧ n < 300

/-- Qualified tag of the SOAP Body element. -/
def soapBodyTag : String := qn nsSoapEnv "Body"

/-- DLNATester._soap_request: post the envelope, fail on transport error,
non-2xx status or unparseable XML, then return the first Body descendant of
the parsed response (absent when there is none). -/
def soap_request (w : World) (control_url service_type action : String)
    (arguments : List (String × String)) : Option Elem :=
  match w.post (make_url w.baseUrl control_url) service_type action arguments with
  | none => none
  | some resp =>
    if is2xx resp.status then
      match resp.xml with
      | none => none
      | some root => root.findDesc soapBodyTag
    else none

/-- The fixed ordered path list probed by discover_device_description. -/
def common_paths : List String :=
  ["/DeviceDescription.xml", "/description.xml", "/rootDesc.xml", "/device.xml",
   "/MediaServer.xml", "/dmr.xml", "/upnp/desc.xml", "/dlna/device.xml", "/"]

/-- Loop body of discover_device_description: the first path whose GET
returns status 200 with a body containing the UPnP device URN substring;
errors on individual paths are swallowed and probing continues. -/
def discoverGo (w : World) : List String → Option String
  | [] => none
  | p :: rest =>
    let url := make_url w.baseUrl p
    match w.get url with
    | some resp =>
      if resp.status = 200 ∧ strContains resp.text ("urn:schemas-upnp-org:device")
      then some url
      else discoverGo w rest
    | none => discoverGo w rest

/-- DLNATester.discover_device_description, with its side effect of caching
the discovered URL in the session. -/
def discover_device_description (w : World) (st : TesterState) :
    Option String × TesterState :=
  match discoverGo w common_paths with
  | some url => (some url, { st with device_description_url := some url })
  | none => (none, st)

/-- The get_text helper of fetch_device_description: text of the upnp child
with the given local tag, or the empty string when the child or its text is
absent or empty. -/
def get_text (elem : Elem) (t : String) : String :=
  match elem.findChild (qn nsUpnpDev t) with
  | some c => (c.text.getD "")
  | none => ""

/-- The get_text_optional helper of fetch_device_description: text of the
upnp child, with an absent or empty text giving the absent value. -/
def get_text_optional (elem : Elem) (t : String) : Option String :=
  match elem.findChild (qn nsUpnpDev t) with
  | some c =>
    match c.text with
    | some s => if s = "" then none else some s
    | none => none
  | none => none

/-- Per-service parsing loop of fetch_device_description. -/
def parseServiceElem (e : Elem) : ServiceInfo :=
  { service_type := get_text e "serviceType"
    service_id := get_text e "serviceId"
    scpd_url := get_text e "SCPDURL"
    control_url := get_text e "controlURL"
    event_sub_url := get_text e "eventSubURL"
    actions := []
    state_variables := [] }

/-- Per-icon parsing loop of fetch_device_description. -/
def parseIconElem (e : Elem) : Icon :=
  { mimetype := get_text e "mimetype"
    width := get_text e "width"
    height := get_text e "height"
    depth := get_text e "depth"
    url := get_text e "url" }

/-- Service caching loop at the end of fetch_device_description: the last
service whose type mentions ContentDirectory or ConnectionManager wins. -/
def cacheServices (services : List ServiceInfo) (st : TesterState) : TesterState :=
  services.foldl
    (fun s svc =>
      if strContains svc.service_type ("ContentDirectory") then
        { s with content_directory := some svc }
      else if strContains svc.service_type ("ConnectionManager") then
        { s with connection_manager := some svc }
      else s)
    st

/-- DLNATester.fetch_device_description: resolve the URL (explicit argument,
then cached URL, then fresh discovery), fetch and parse the description, and
populate the session caches.  Returns the absent value on any fetch or parse
error or when no device element is found. -/
def fetch_device_description (w : World) (st : TesterState) (urlArg : Option String) :
    Option DeviceInfo × TesterState :=
  let resolved : Option String × TesterState :=
    match urlArg with
    | some u => (some u, st)
    | none =>
      match st.device_description_url with
      | some u => (some u, st)
      | none => discover_device_description w st
  match resolved with
  | (none, st1) => (none, st1)
  | (some url, st1) =>
    match w.get url with
    | none => (none, st1)
    | some resp =>
      if is2xx resp.status then
        match resp.xml with
        | none => (none, st1)
        | some root =>
          match root.findDesc (qn nsUpnpDev "device") with
          | none => (none, st1)
          | some device =>
            let services :=
              match device.findChild (qn nsUpnpDev "serviceList") with
              | some sl => (sl.findallChild (qn nsUpnpDev "service")).map parseServiceElem
              | none => []
            let icons :=
              match device.findChild (qn nsUpnpDev "iconList") with
              | some il => (il.findallChild (qn nsUpnpDev "icon")).map parseIconElem
              | none => []
            let dev : DeviceInfo :=
              { device_type := get_text device "deviceType"
                friendly_name := get_text device "friendlyName"
                manufacturer := get_text device "manufacturer"
                manufacturer_url := get_text_optional device "manufacturerURL"
                model_name := get_text device "modelName"
                model_description := get_text_optional device "modelDescription"
                model_number := get_text_optional device "modelNumber"
                model_url := get_text_optional device "modelURL"
                serial_number := get_text_optional device "serialNumber"
                udn := get_text device "UDN"
                presentation_url := get_text_optional device "presentationURL"
                services := services
                icons := icons }
            let st2 := cacheServices services { st1 with device_info := some dev }
            (some dev, st2)
      else (none, st1)

/-- DLNATester.fetch_service_description: fetch and parse the SCPD document,
appending (never clearing) action names and state variables to the service;
on any fetch or parse error the service is returned unchanged with a false
flag. -/
def fetch_service_description (w : World) (service : ServiceInfo) :
    Bool × ServiceInfo :=
  match w.get (make_url w.baseUrl service.scpd_url) with
  | none => (false, service)
  | some resp =>
    if is2xx resp.status then
      match resp.xml with
      | none => (false, service)
      | some root =>
        let acts :=
          match root.findDesc (qn nsServiceDesc "actionList") with
          | some al =>
            (al.findallChild (qn nsServiceDesc "action")).filterMap
              (fun a =>
                match a.findChild (qn nsServiceDesc "name") with
                | some ne =>
                  match ne.text with
                  | some t => if t = "" then none else some t
                  | none => none
                | none => none)
          | none => []
        let svars :=
          match root.findDesc (qn nsServiceDesc "serviceStateTable") with
          | some tbl =>
            (tbl.findallChild (qn nsServiceDesc "stateVariable")).filterMap
              (fun v =>
                match v.findChild (qn nsServiceDesc "name") with
                | some ne =>
                  some (ne.text,
                        (v.findChild (qn nsServiceDesc "dataType")).bind Elem.text,
                        v.getD "sendEvents" "yes")
                | none => none)
          | none => []
        (true,
         { service with
             actions := service.actions ++ acts
             state_variables := service.state_variables ++ svars })
    else (false, service)

/-- Two-step result lookup used by every capability getter and by browse and
search: first the ContentDirectory-namespaced descendant, then the bare
tag as a fallback for servers with inaccurate namespace declarations. -/
def cdsLookup (body : Elem) (t : String) : Option Elem :=
  match body.findDesc (qn nsCDS t) with
  | some r => some r
  | none => body.findDesc t

/-- DLNATester.get_search_capabilities: the absent value when no
ContentDirectory is cached or the SOAP action fails; otherwise the text of
the SearchCaps element, the empty string when the element is missing — and,
as in the source, the raw element text (which is absent for an empty
element) when the element is present. -/
def get_search_capabilities (w : World) (st : TesterState) : Option String :=
  match st.content_directory with
  | none => none
  | some cd =>
    match soap_request w cd.control_url cd.service_type "GetSearchCapabilities" [] with
    | none => none
    | some body =>
      match cdsLookup body "SearchCaps" with
      | some r => r.text
      | none => some ""

/-- DLNATester.get_sort_capabilities, same shape as the search variant. -/
def get_sort_capabilities (w : World) (st : TesterState) : Option String :=
  match st.content_directory with
  | none => none
  | some cd =>
    match soap_request w cd.control_url cd.service_type "GetSortCapabilities" [] with
    | none => none
    | some body =>
      match cdsLookup body "SortCaps" with
      | some r => r.text
      | none => some ""

/-- DLNATester.get_system_update_id: absent on SOAP failure, on a missing or
empty Id element, and on a ValueError from int(). -/
def get_system_update_id (w : World) (st : TesterState) : Option Int :=
  match st.content_directory with
  | none => none
  | some cd =>
    match soap_request w cd.control_url cd.service_type "GetSystemUpdateID" [] with
    | none => none
    | some body =>
      match cdsLookup body "Id" with
      | none => none
      | some r =>
        match r.text with
        | none => none
        | some t => if t = "" then none else pyInt t

/-- Two-step lookup against the ConnectionManager namespace. -/
def cmsLookup (body : Elem) (t : String) : Option Elem :=
  match body.findDesc (qn nsCMS t) with
  | some r => some r
  | none => body.findDesc t

/-- DLNATester.get_protocol_info: pair of source and sink protocol lists,
each the element text (possibly absent) of the Source and Sink elements;
both absent when no ConnectionManager is cached or the SOAP action fails. -/
def get_protocol_info (w : World) (st : TesterState) :
    Option String × Option String :=
  match st.connection_manager with
  | none => (none, none)
  | some cm =>
    match soap_request w cm.control_url cm.service_type "GetProtocolInfo" [] with
    | none => (none, none)
    | some body =>
      ((cmsLookup body "Source").bind Elem.text,
       (cmsLookup body "Sink").bind Elem.text)

/-- Qualified tag of a DIDL-Lite container element. -/
def didlContainerTag : String := qn nsDidl "container"

/-- Qualified tag of a DIDL-Lite item element. -/
def didlItemTag : String := qn nsDidl "item"

/-- Resource dictionary built per res child by _parse_didl_item: the url key
holds the element text and the remaining keys copy attributes, with absent
values removed rather than stored. -/
def parseResElem (res : Elem) : List (String × String) :=
  ([("url", res.text),
    ("protocol_info", res.get "protocolInfo"),
    ("size", res.get "size"),
    ("duration", res.get "duration"),
    ("bitrate", res.get "bitrate"),
    ("sample_frequency", res.get "sampleFrequency"),
    ("bits_per_sample", res.get "bitsPerSample"),
    ("nr_audio_channels", res.get "nrAudioChannels"),
    ("resolution", res.get "resolution"),
    ("color_depth", res.get "colorDepth")]).filterMap
    (fun p => match p.2 with
      | some v => some (p.1, v)
      | none => none)

/-- Dublin Core metadata tags collected by _parse_didl_item. -/
def dcMetaTags : List String :=
  ["creator", "date", "description", "publisher", "rights"]

/-- UPnP metadata tags collected by _parse_didl_item. -/
def upnpMetaTags : List String :=
  ["artist", "album", "genre", "albumArtURI", "originalTrackNumber",
   "playbackCount", "lastPlaybackTime", "rating"]

/-- Metadata entry for one allow-listed tag: included only when the child is
present with nonempty text. -/
def metaEntry (elem : Elem) (ns t : String) : Option (String × String) :=
  match elem.findChild (qn ns t) with
  | some f =>
    match f.text with
    | some s => if s = "" then none else some (t, s)
    | none => none
  | none => none

/-- DLNATester._parse_didl_item: build a MediaItem from one container or item
element.  The source annotates an optional return type but never returns the
absent value, and its caller appends each returned object unconditionally. -/
def parse_didl_item (elem : Elem) (is_container : Bool) : MediaItem :=
  { id := elem.getD "id" ""
    parent_id := elem.getD "parentID" ""
    title := ((elem.findChild (qn nsDc "title")).bind Elem.text).getD ""
    itemClass := ((elem.findChild (qn nsUpnpMeta "class")).bind Elem.text).getD ""
    restricted := elem.getD "restricted" "1" = "1"
    resources := (elem.findallChild (qn nsDidl "res")).map parseResElem
    metadata :=
      (dcMetaTags.filterMap (metaEntry elem nsDc)) ++
      (upnpMetaTags.filterMap (metaEntry elem nsUpnpMeta))
    is_container := is_container
    child_count :=
      if is_container then
        match elem.get "childCount" with
        | some cc => if cc = "" then none else pyInt cc
        | none => none
      else none }

/-- DLNATester._parse_didl_lite: unescape when an escaped marker is present,
parse, and collect all container descendants first (in document order) and
then all item descendants (in document order); unparseable text yields the
empty list. -/
def parse_didl_lite (w : World) (didl_text : String) : List MediaItem :=
  let t := if strContains didl_text ("&lt;") then w.unescape didl_text else didl_text
  match w.parseXml t with
  | none => []
  | some root =>
    ((root.findallDesc didlContainerTag).map (fun e => parse_didl_item e true)) ++
    ((root.findallDesc didlItemTag).map (fun e => parse_didl_item e false))

/-- Count extraction shared by browse and search: for a present element the
text is parsed when truthy and defaults to zero otherwise; the absent result
models a ValueError from int(). -/
def parse_count (e : Option Elem) : Option Int :=
  match e with
  | some el =>
    match el.text with
    | some t => if t = "" then some 0 else pyInt t
    | none => some 0
  | none => some 0

/-- The single try block around both int() conversions in browse and search:
if either raises, both counts fall back to zero. -/
def parse_counts (nr tm : Option Elem) : Int × Int :=
  match parse_count nr, parse_count tm with
  | some a, some b => (a, b)
  | _, _ => (0, 0)

/-- Response-body half of browse and of search (duplicated verbatim between
the two in the source): look up Result, NumberReturned and TotalMatches with
the two-step lookup, return the empty triple when Result or its text is
absent, and otherwise parse the DIDL payload and the counts. -/
def browseParseBody (w : World) (body : Elem) : List MediaItem × Int × Int :=
  let result_elem := cdsLookup body "Result"
  let num_returned_elem := cdsLookup body "NumberReturned"
  let total_matches_elem := cdsLookup body "TotalMatches"
  match result_elem with
  | none => ([], 0, 0)
  | some re =>
    match re.text with
    | none => ([], 0, 0)
    | some txt =>
      let counts := parse_counts num_returned_elem total_matches_elem
      (parse_didl_lite w txt, counts.1, counts.2)

/-- SOAP argument list built by browse, in insertion order. -/
def browseArgs (object_id browse_flag filter_str : String)
    (starting_index requested_count : Int) (sort_criteria : String) :
    List (String × String) :=
  [("ObjectID", object_id), ("BrowseFlag", browse_flag), ("Filter", filter_str),
   ("StartingIndex", toString starting_index),
   ("RequestedCount", toString requested_count),
   ("SortCriteria", sort_criteria)]

/-- DLNATester.browse: absent when no ContentDirectory is cached or the SOAP
request fails; otherwise the parsed triple. -/
def browse (w : World) (st : TesterState) (object_id browse_flag filter_str : String)
    (starting_index requested_count : Int) (sort_criteria : String) :
    Option (List MediaItem × Int × Int) :=
  match st.content_directory with
  | none => none
  | some cd =>
    match soap_request w cd.control_url cd.service_type "Browse"
        (browseArgs object_id browse_flag filter_str starting_index
          requested_count sort_criteria) with
    | none => none
    | some body => some (browseParseBody w body)

/-- SOAP argument list built by search, in insertion order. -/
def searchArgs (container_id search_criteria filter_str : String)
    (starting_index requested_count : Int) (sort_criteria : String) :
    List (String × String) :=
  [("ContainerID", container_id), ("SearchCriteria", search_criteria),
   ("Filter", filter_str), ("StartingIndex", toString starting_index),
   ("RequestedCount", toString requested_count),
   ("SortCriteria", sort_criteria)]

/-- DLNATester.search: same shape as browse with the Search action. -/
def search (w : World) (st : TesterState)
    (container_id search_criteria filter_str : String)
    (starting_index requested_count : Int) (sort_criteria : String) :
    Option (List MediaItem × Int × Int) :=
  match st.content_directory with
  | none => none
  | some cd =>
    match soap_request w cd.control_url cd.service_type "Search"
        (searchArgs container_id search_criteria filter_str starting_index
          requested_count sort_criteria) with
    | none => none
    | some body => some (browseParseBody w body)

/-- DLNATester.fetch_resource: ranged GET of the first kilobyte; present
exactly when the request succeeds with status 200 or 206. -/
def fetch_resource (w : World) (url : String) : Option (String × Option String) :=
  match w.rangeGet (make_url w.baseUrl url) with
  | some resp =>
    if resp.status = 200 ∨ resp.status = 206 then some (resp.text, resp.contentType)
    else none
  | none => none

/-- DLNATester.check_resource_headers, reduced to the accessible entry of the
returned dictionary (true exactly on a HEAD status of 200); the remaining
entries copy response headers and are never consumed by the suite. -/
def check_resource_headers (w : World) (url : String) : Bool :=
  match w.head (make_url w.baseUrl url) with
  | some resp => resp.status = 200
  | none => false

/-- Configuration of a suite run (tests.py, TestSuite.__init__): the World
stands for the DLNATester session handed to the suite. -/
structure SuiteCfg where
  world : World
  full_scan : Bool
  max_items : Nat

/-- Depth limit for browsing set in TestSuite.__init__: 10 in full-scan mode
and 3 otherwise. -/
def SuiteCfg.max_depth (c : SuiteCfg) : Nat :=
  if c.full_scan then 10 else 3

/-- Mutable state of a suite run: the tester session, the append-only result
list and the shared browsed-item collection.  The trace field is ghost
instrumentation for verification only: it records, for each Browse call
issued inside _test_recursive_browse, the recursion depth and the size of
the browsed-item collection on entry; no suite behaviour reads it. -/
structure SuiteState where
  tester : TesterState
  results : List TestResult
  browsed_items : List MediaItem
  trace : List (Nat × Nat)

/-- TestSuite._add_result: append one result. -/
def addResult (st : SuiteState) (name : String) (category : TestCategory)
    (status : TestStatus) (message : String)
    (details : List (String × DetailValue)) (weight : ℚ) : SuiteState :=
  { st with
      results := st.results ++
        [{ name := name, category := category, status := status,
           message := message, details := details, weight := weight }] }

/-- TestSuite._run_connectivity_tests: a raw GET of the base URL (PASS on any
response, FAIL and stop the phase on an exception), then description
discovery. -/
def run_connectivity_tests (w : World) (st : SuiteState) : SuiteState :=
  match w.get w.baseUrl with
  | some response =>
    let st := addResult st "HTTP Connection" TestCategory.CONNECTIVITY TestStatus.PASS
      ("Server responded with status " ++ toString response.status)
      [("status_code", DetailValue.int response.status)] 2
    match discover_device_description w st.tester with
    | (some desc_url, ts) =>
      addResult { st with tester := ts } "Device Description Discovery"
        TestCategory.CONNECTIVITY TestStatus.PASS
        ("Found device description at " ++ desc_url)
        [("url", DetailValue.str desc_url)] 2
    | (none, ts) =>
      addResult { st with tester := ts } "Device Description Discovery"
        TestCategory.CONNECTIVITY TestStatus.FAIL
        "Could not find device description XML" [] 2
  | none =>
    addResult st "HTTP Connection" TestCategory.CONNECTIVITY TestStatus.FAIL
      "Failed to connect" [] 2

/-- TestSuite._run_device_description_tests. -/
def run_device_description_tests (w : World) (st : SuiteState) : SuiteState :=
  match fetch_device_description w st.tester none with
  | (none, ts) =>
    addResult { st with tester := ts } "Device Description Parsing"
      TestCategory.DEVICE_DESCRIPTION TestStatus.FAIL
      "Could not parse device description" [] 2
  | (some device, ts) =>
    let st := { st with tester := ts }
    let st :=
      if strContains device.device_type ("MediaServer") then
        addResult st "Device Type" TestCategory.DEVICE_DESCRIPTION TestStatus.PASS
          ("Device type: " ++ device.device_type)
          [("device_type", DetailValue.str device.device_type)] 1
      else
        addResult st "Device Type" TestCategory.DEVICE_DESCRIPTION TestStatus.WARN
          ("Non-standard device type: " ++ device.device_type)
          [("device_type", DetailValue.str device.device_type)] 1
    let st :=
      [("friendlyName", device.friendly_name), ("manufacturer", device.manufacturer),
       ("modelName", device.model_name), ("UDN", device.udn)].foldl
        (fun st p =>
          if p.2 ≠ "" then
            addResult st ("Required Field: " ++ p.1) TestCategory.DEVICE_DESCRIPTION
              TestStatus.PASS
              (if p.2.length > 50 then p.1 ++ " present: " ++ p.2.take 50 ++ "..."
               else p.1 ++ " present: " ++ p.2) [] 1
          else
            addResult st ("Required Field: " ++ p.1) TestCategory.DEVICE_DESCRIPTION
              TestStatus.FAIL ("Missing required field: " ++ p.1) [] 1)
        st
    let st :=
      if strStartsWith device.udn "uuid:" then
        addResult st "UDN Format" TestCategory.DEVICE_DESCRIPTION TestStatus.PASS
          "UDN follows uuid: format" [] 1
      else
        addResult st "UDN Format" TestCategory.DEVICE_DESCRIPTION TestStatus.WARN
          ("UDN does not follow uuid: format: " ++ device.udn) [] 1
    let service_types := device.services.map (fun s => s.service_type)
    let has_content_dir := service_types.any (fun s => strContains s ("ContentDirectory"))
    let has_conn_mgr := service_types.any (fun s => strContains s ("ConnectionManager"))
    let st :=
      if has_content_dir then
        addResult st "ContentDirectory Service" TestCategory.DEVICE_DESCRIPTION
          TestStatus.PASS "ContentDirectory service present" [] 2
      else
        addResult st "ContentDirectory Service" TestCategory.DEVICE_DESCRIPTION
          TestStatus.FAIL "ContentDirectory service missing (required for DLNA DMS)" [] 2
    let st :=
      if has_conn_mgr then
        addResult st "ConnectionManager Service" TestCategory.DEVICE_DESCRIPTION
          TestStatus.PASS "ConnectionManager service present" [] (3 / 2)
      else
        addResult st "ConnectionManager Service" TestCategory.DEVICE_DESCRIPTION
          TestStatus.WARN "ConnectionManager service missing (recommended)" [] (3 / 2)
    if device.icons ≠ [] then
      addResult st "Device Icons" TestCategory.DEVICE_DESCRIPTION TestStatus.PASS
        ("Device has " ++ toString device.icons.length ++ " icon(s)")
        [("icon_count", DetailValue.int device.icons.length)] 1
    else
      addResult st "Device Icons" TestCategory.DEVICE_DESCRIPTION TestStatus.WARN
        "No device icons defined (recommended for better UX)" [] 1

/-- Message of a capabilities PASS result: truncated at 100 characters, with
an (empty) marker for the empty string. -/
def capsMessage (label caps : String) : String :=
  if caps ≠ "" ∧ caps.length > 100 then label ++ caps.take 100 ++ "..."
  else label ++ (if caps ≠ "" then caps else "(empty)")

/-- TestSuite._run_content_directory_tests. -/
def run_content_directory_tests (w : World) (st : SuiteState) : SuiteState :=
  match st.tester.content_directory with
  | none =>
    addResult st "Content Directory Available" TestCategory.CONTENT_DIRECTORY
      TestStatus.SKIP "ContentDirectory service not available" [] 1
  | some cd0 =>
    let fetched := fetch_service_description w cd0
    let cd := fetched.2
    let st := { st with tester := { st.tester with content_directory := some cd } }
    let st :=
      if fetched.1 then
        addResult st "SCPD Retrieval" TestCategory.CONTENT_DIRECTORY TestStatus.PASS
          ("Retrieved SCPD with " ++ toString cd.actions.length ++ " actions")
          [("actions", DetailValue.strList cd.actions)] 1
      else
        addResult st "SCPD Retrieval" TestCategory.CONTENT_DIRECTORY TestStatus.FAIL
          "Could not retrieve Service Control Protocol Description" [] 1
    let st :=
      ["Browse", "GetSearchCapabilities", "GetSortCapabilities", "GetSystemUpdateID"].foldl
        (fun st action =>
          if cd.actions.contains action then
            addResult st ("Action: " ++ action) TestCategory.CONTENT_DIRECTORY
              TestStatus.PASS (action ++ " action available") [] 1
          else
            addResult st ("Action: " ++ action) TestCategory.CONTENT_DIRECTORY
              TestStatus.FAIL ("Required action " ++ action ++ " not found") [] 1)
        st
    let st :=
      ["Search", "CreateObject", "DestroyObject", "UpdateObject"].foldl
        (fun st action =>
          if cd.actions.contains action then
            addResult st ("Optional Action: " ++ action) TestCategory.CONTENT_DIRECTORY
              TestStatus.PASS (action ++ " action available") [] (1 / 2)
          else st)
        st
    let st :=
      match get_search_capabilities w st.tester with
      | some search_caps =>
        addResult st "GetSearchCapabilities" TestCategory.CONTENT_DIRECTORY
          TestStatus.PASS (capsMessage "Search capabilities: " search_caps)
          [("capabilities", DetailValue.optStr (some search_caps))] 1
      | none =>
        addResult st "GetSearchCapabilities" TestCategory.CONTENT_DIRECTORY
          TestStatus.FAIL "GetSearchCapabilities action failed" [] 1
    let st :=
      match get_sort_capabilities w st.tester with
      | some sort_caps =>
        addResult st "GetSortCapabilities" TestCategory.CONTENT_DIRECTORY
          TestStatus.PASS (capsMessage "Sort capabilities: " sort_caps)
          [("capabilities", DetailValue.optStr (some sort_caps))] 1
      | none =>
        addResult st "GetSortCapabilities" TestCategory.CONTENT_DIRECTORY
          TestStatus.FAIL "GetSortCapabilities action failed" [] 1
    match get_system_update_id w st.tester with
    | some update_id =>
      addResult st "GetSystemUpdateID" TestCategory.CONTENT_DIRECTORY TestStatus.PASS
        ("System update ID: " ++ toString update_id)
        [("update_id", DetailValue.int update_id)] 1
    | none =>
      addResult st "GetSystemUpdateID" TestCategory.CONTENT_DIRECTORY TestStatus.FAIL
        "GetSystemUpdateID action failed" [] 1

/-- TestSuite._run_connection_manager_tests. -/
def run_connection_manager_tests (w : World) (st : SuiteState) : SuiteState :=
  match st.tester.connection_manager with
  | none =>
    addResult st "Connection Manager Available" TestCategory.CONNECTION_MANAGER
      TestStatus.SKIP "ConnectionManager service not available" [] 1
  | some cm0 =>
    let fetched := fetch_service_description w cm0
    let cm := fetched.2
    let st := { st with tester := { st.tester with connection_manager := some cm } }
    let st :=
      if fetched.1 then
        addResult st "CM SCPD Retrieval" TestCategory.CONNECTION_MANAGER TestStatus.PASS
          ("Retrieved SCPD with " ++ toString cm.actions.length ++ " actions")
          [("actions", DetailValue.strList cm.actions)] 1
      else
        addResult st "CM SCPD Retrieval" TestCategory.CONNECTION_MANAGER TestStatus.FAIL
          "Could not retrieve ConnectionManager SCPD" [] 1
    match (get_protocol_info w st.tester).1 with
    | some source =>
      let protocols := if source ≠ "" then pySplit source ',' else []
      let st := addResult st "GetProtocolInfo" TestCategory.CONNECTION_MANAGER
        TestStatus.PASS
        ("Source protocols: " ++ toString protocols.length ++ " defined")
        [("source_protocols", DetailValue.strList (protocols.take 10)),
         ("total_count", DetailValue.int protocols.length)] 1
      let has_http := protocols.any (fun p => strContains (strToLower p) ("http-get"))
      if has_http then
        addResult st "HTTP Streaming Protocol" TestCategory.CONNECTION_MANAGER
          TestStatus.PASS "http-get protocol supported" [] 1
      else
        addResult st "HTTP Streaming Protocol" TestCategory.CONNECTION_MANAGER
          TestStatus.WARN "http-get protocol not advertised" [] 1
    | none =>
      addResult st "GetProtocolInfo" TestCategory.CONNECTION_MANAGER TestStatus.FAIL
        "GetProtocolInfo action failed" [] 1

mutual
/-- TestSuite._test_recursive_browse: give up beyond the depth limit or once
the browsed-item count has reached the budget; otherwise browse the
container, extend the shared collection, and recurse into the
sub-containers (all of them in full-scan mode, only the first otherwise).
A Browse failure is reported as a FAIL only outside full-scan mode.  Each
Browse call appends its (depth, count on entry) pair to the ghost trace. -/
def test_recursive_browse (c : SuiteCfg) (container : MediaItem) (depth : Nat)
    (st : SuiteState) : SuiteState :=
  if depth > c.max_depth then st
  else if st.browsed_items.length ≥ c.max_items then st
  else
    let st := { st with trace := st.trace ++ [(depth, st.browsed_items.length)] }
    match browse c.world st.tester container.id "BrowseDirectChildren" "*" 0 100 "" with
    | some r =>
      let items := r.1
      let num_returned := r.2.1
      let st := { st with browsed_items := st.browsed_items ++ items }
      let st :=
        if depth = 1 ∧ ¬ c.full_scan then
          addResult st "Container Navigation" TestCategory.BROWSING TestStatus.PASS
            ("Successfully browsed container " ++ container.title ++ " (" ++
             toString num_returned ++ " items)") [] 1
        else st
      let sub_containers := items.filter (fun i => i.is_container)
      if sub_containers ≠ [] then
        if _hlt : depth < c.max_depth then
          if c.full_scan then browse_sub_list c sub_containers (depth + 1) st
          else
            match sub_containers with
            | [] => st
            | s :: _ => test_recursive_browse c s (depth + 1) st
        else st
      else st
    | none =>
      if ¬ c.full_scan then
        addResult st "Container Navigation" TestCategory.BROWSING TestStatus.FAIL
          ("Failed to browse container " ++ container.title ++ " (ID: " ++
           container.id ++ ")") [] 1
      else st
termination_by (c.max_depth + 1 - depth, 0)
decreasing_by
  all_goals (apply Prod.Lex.left; omega)

/-- The full-scan loop over a list of sub-containers, with its break once the
budget is reached; also models the loop over the root containers in
_run_browsing_tests, which has the same text. -/
def browse_sub_list (c : SuiteCfg) (subs : List MediaItem) (depth : Nat)
    (st : SuiteState) : SuiteState :=
  match subs with
  | [] => st
  | s :: rest =>
    if st.browsed_items.length ≥ c.max_items then st
    else browse_sub_list c rest depth (test_recursive_browse c s depth st)
termination_by (c.max_depth + 1 - depth, subs.length + 1)
decreasing_by
  all_goals simp only [List.length_cons]
  all_goals first
    | (apply Prod.Lex.left; omega)
    | (apply Prod.Lex.right; omega)
end

/-- The BrowseMetadata block of _run_browsing_tests. -/
def browse_metadata_check (c : SuiteCfg) (st : SuiteState) : SuiteState :=
  match browse c.world st.tester "0" "BrowseMetadata" "*" 0 100 "" with
  | some _ =>
    addResult st "Browse Metadata" TestCategory.BROWSING TestStatus.PASS
      "BrowseMetadata for root successful" [] 1
  | none =>
    addResult st "Browse Metadata" TestCategory.BROWSING TestStatus.FAIL
      "BrowseMetadata for root failed" [] 1

/-- The pagination block of _run_browsing_tests, run when more than one item
exists. -/
def pagination_check (c : SuiteCfg) (total_matches : Int) (st : SuiteState) :
    SuiteState :=
  if total_matches > 1 then
    match browse c.world st.tester "0" "BrowseDirectChildren" "*" 0 1 "" with
    | some page =>
      if page.2.1 = 1 then
        addResult st "Pagination Support" TestCategory.BROWSING TestStatus.PASS
          "Pagination (RequestedCount) works correctly" [] 1
      else
        addResult st "Pagination Support" TestCategory.BROWSING TestStatus.WARN
          "Pagination may not work correctly" [] 1
    | none =>
      addResult st "Pagination Support" TestCategory.BROWSING TestStatus.WARN
        "Pagination may not work correctly" [] 1
  else st

/-- The StartingIndex block of _run_browsing_tests, run when more than two
items exist. -/
def starting_index_check (c : SuiteCfg) (items : List MediaItem)
    (total_matches : Int) (st : SuiteState) : SuiteState :=
  if total_matches > 2 then
    match browse c.world st.tester "0" "BrowseDirectChildren" "*" 1 1 "" with
    | some offset_result =>
      let offset_items := offset_result.1
      let offset_returned := offset_result.2.1
      if offset_returned ≥ 1 ∧ offset_items ≠ [] then
        let first_item_id := items.head?.map (fun i => i.id)
        let offset_item_id := offset_items.head?.map (fun i => i.id)
        if truthy first_item_id ∧ truthy offset_item_id ∧
            first_item_id ≠ offset_item_id then
          addResult st "StartingIndex Offset" TestCategory.BROWSING TestStatus.PASS
            "StartingIndex offset works correctly (returned different item)" [] 1
        else if first_item_id = offset_item_id then
          addResult st "StartingIndex Offset" TestCategory.BROWSING TestStatus.FAIL
            "StartingIndex offset ignored (returned same first item)" [] 1
        else
          addResult st "StartingIndex Offset" TestCategory.BROWSING TestStatus.PASS
            "StartingIndex offset returns results" [] 1
      else
        addResult st "StartingIndex Offset" TestCategory.BROWSING TestStatus.WARN
          "StartingIndex offset returned no items" [] 1
    | none =>
      addResult st "StartingIndex Offset" TestCategory.BROWSING TestStatus.FAIL
        "Browse with StartingIndex > 0 failed" [] 1
  else st

/-- Middle section of _run_browsing_tests after a successful root browse:
the BrowseMetadata, pagination and StartingIndex blocks in order.  These
add results but never extend the browsed-item collection. -/
def browse_root_checks (c : SuiteCfg) (items : List MediaItem)
    (total_matches : Int) (st : SuiteState) : SuiteState :=
  starting_index_check c items total_matches
    (pagination_check c total_matches (browse_metadata_check c st))

/-- TestSuite._run_browsing_tests: root browse (fatal to the category on
failure), the root checks, then container navigation in the configured
mode. -/
def run_browsing_tests (c : SuiteCfg) (st : SuiteState) : SuiteState :=
  match st.tester.content_directory with
  | none =>
    addResult st "Browse Root" TestCategory.BROWSING TestStatus.SKIP
      "ContentDirectory not available" [] 1
  | some _ =>
    match browse c.world st.tester "0" "BrowseDirectChildren" "*" 0 100 "" with
    | none =>
      addResult st "Browse Root" TestCategory.BROWSING TestStatus.FAIL
        "Browse action failed for root container" [] 2
    | some root_result =>
      let items := root_result.1
      let num_returned := root_result.2.1
      let total_matches := root_result.2.2
      let st := addResult st "Browse Root" TestCategory.BROWSING TestStatus.PASS
        ("Root browse returned " ++ toString num_returned ++ " items, " ++
         toString total_matches ++ " total")
        [("items", DetailValue.int items.length),
         ("num_returned", DetailValue.int num_returned),
         ("total_matches", DetailValue.int total_matches)] 2
      let st := { st with browsed_items := st.browsed_items ++ items }
      let st := browse_root_checks c items total_matches st
      let containers := items.filter (fun i => i.is_container)
      match containers with
      | [] =>
        addResult st "Container Navigation" TestCategory.BROWSING TestStatus.WARN
          "No containers found in root to test navigation" [] 1
      | c0 :: _ =>
        if c.full_scan then
          let st := browse_sub_list c containers 1 st
          let media_count :=
            (st.browsed_items.filter (fun i => ¬ i.is_container)).length
          let container_count :=
            (st.browsed_items.filter (fun i => i.is_container)).length
          addResult st "Full Scan Complete" TestCategory.BROWSING TestStatus.PASS
            ("Scanned " ++ toString st.browsed_items.length ++ " items (" ++
             toString container_count ++ " containers, " ++
             toString media_count ++ " media files)")
            [("total", DetailValue.int st.browsed_items.length),
             ("containers", DetailValue.int container_count),
             ("media", DetailValue.int media_count)] 1
        else
          test_recursive_browse c c0 1 st

/-- XML metacharacters scanned for by _test_unicode_handling. -/
def xmlSpecialChars : List Char :=
  ['<', '>', '&', Char.ofNat 34, Char.ofNat 39]

/-- The Unicode replacement character. -/
def replacementChar : Char := Char.ofNat 0xFFFD

/-- TestSuite._test_unicode_handling: count titles with non-ASCII or XML
metacharacters (a title with both counts twice, as the source appends the
item to its list once per check) and collect titles holding the replacement
character. -/
def test_unicode_handling (st : SuiteState) : SuiteState :=
  let titles := st.browsed_items.filterMap
    (fun i => if i.title = "" then none else some i.title)
  let unicode_count : Nat :=
    (titles.map (fun t =>
      (if t.data.any (fun ch => ch.toNat > 127) then (1 : Nat) else 0) +
      (if t.data.any (fun ch => xmlSpecialChars.contains ch) then 1 else 0))).sum
  let problematic := titles.filter (fun t => t.data.contains replacementChar)
  if problematic ≠ [] then
    addResult st "Unicode Handling" TestCategory.METADATA TestStatus.WARN
      (toString problematic.length ++
       " items have encoding issues (replacement characters)")
      [("problematic_titles", DetailValue.strList
          ((problematic.take 5).map (fun t => t.take 50)))] 1
  else if unicode_count > 0 then
    addResult st "Unicode Handling" TestCategory.METADATA TestStatus.PASS
      (toString unicode_count ++
       " items with Unicode/special chars handled correctly") [] 1
  else
    addResult st "Unicode Handling" TestCategory.METADATA TestStatus.PASS
      "No Unicode/special characters found (ASCII-only content)" [] (1 / 2)

/-- Hexadecimal characters accepted by the flags validation, exactly the
character class written in _test_dlna_flags. -/
def flagsHexChars : List Char := "0123456789abcdefABCDEF".data

/-- Membership in the hexadecimal character class. -/
def isFlagsHex (c : Char) : Bool := flagsHexChars.contains c

/-- Whether a character list starts with a hexadecimal character. -/
def headIsHex (l : List Char) : Bool :=
  match l.head? with
  | some h => isFlagsHex h
  | none => false

/-- The regex search for DLNA.ORG_FLAGS= followed by one or more hex
characters: earliest-position match, capturing the maximal hex run after
the literal.  The literal is 15 characters long. -/
def flagsSearch : List Char → Option (List Char)
  | [] => none
  | c :: rest =>
    if ("DLNA.ORG_FLAGS=".data).isPrefixOf (c :: rest) ∧ headIsHex ((c :: rest).drop 15)
    then some (((c :: rest).drop 15).takeWhile isFlagsHex)
    else flagsSearch rest

/-- The 4th colon-delimited field of a protocolInfo string, present exactly
when the string has at least four fields. -/
def additionalField (pinfo : String) : Option String :=
  let parts := pySplit pinfo ':'
  if parts.length ≥ 4 then some ((parts.get? 3).getD "") else none

/-- Whether the 4th field mentions the profile-name token. -/
def pinfoHasPN (pinfo : String) : Bool :=
  match additionalField pinfo with
  | some add => strContains add ("DLNA.ORG_PN=")
  | none => false

/-- Whether the 4th field mentions the operations token. -/
def pinfoHasOP (pinfo : String) : Bool :=
  match additionalField pinfo with
  | some add => strContains add ("DLNA.ORG_OP=")
  | none => false

/-- Whether the 4th field mentions the flags token. -/
def pinfoHasFlagsToken (pinfo : String) : Bool :=
  match additionalField pinfo with
  | some add => strContains add ("DLNA.ORG_FLAGS=")
  | none => false

/-- The captured flags value of a protocolInfo string: present when the 4th
field holds the token and the regex finds a hex run after it. -/
def pinfoFlagsValue (pinfo : String) : Option String :=
  match additionalField pinfo with
  | some add =>
    if strContains add ("DLNA.ORG_FLAGS=") then
      (flagsSearch add.data).map (fun l => String.mk l)
    else none
  | none => none

/-- The validity check applied to a captured flags value: exactly 32
characters, all in the hexadecimal class. -/
def flagsValueValid (v : String) : Bool :=
  v.length = 32 ∧ v.data.all isFlagsHex

/-- The malformed-flags entry that a protocolInfo contributes to the
invalid list, when it contributes one. -/
def pinfoInvalidFlag (pinfo : String) : Option String :=
  match pinfoFlagsValue pinfo with
  | some v =>
    if flagsValueValid v then none
    else some ("Invalid length or format: " ++ String.mk (v.data.take 40))
  | none => none

/-- The well-formed flags value that a protocolInfo contributes to the
valid-examples list, when it contributes one. -/
def pinfoValidFlag (pinfo : String) : Option String :=
  match pinfoFlagsValue pinfo with
  | some v => if flagsValueValid v then some v else none
  | none => none

/-- The truthy protocol_info values over all resources of the given items,
as collected at the top of _test_dlna_flags. -/
def protocolInfosOf (media_items : List MediaItem) : List String :=
  (media_items.flatMap (fun i => i.resources)).filterMap
    (fun r =>
      match r.lookup "protocol_info" with
      | some s => if s = "" then none else some s
      | none => none)

/-- TestSuite._test_dlna_flags: returns the state unchanged when there are no
items or no protocolInfo strings; otherwise reports profile names, the
operations parameter and the flags-format validation. -/
def test_dlna_flags (media_items : List MediaItem) (st : SuiteState) : SuiteState :=
  if media_items = [] then st
  else
    let protocol_infos := protocolInfosOf media_items
    if protocol_infos = [] then st
    else
      let has_dlna_pn := (protocol_infos.filter pinfoHasPN).length
      let has_dlna_op := (protocol_infos.filter pinfoHasOP).length
      let has_dlna_flags := (protocol_infos.filter pinfoHasFlagsToken).length
      let invalid_flags := protocol_infos.filterMap pinfoInvalidFlag
      let valid_flags_examples := (protocol_infos.filterMap pinfoValidFlag).take 3
      let total := protocol_infos.length
      let st :=
        if has_dlna_pn > 0 then
          addResult st "DLNA Profile Names" TestCategory.METADATA TestStatus.PASS
            (toString has_dlna_pn ++ "/" ++ toString total ++
             " resources have DLNA.ORG_PN (profile name)") [] 1
        else
          addResult st "DLNA Profile Names" TestCategory.METADATA TestStatus.WARN
            "No resources have DLNA.ORG_PN profile names" [] 1
      let st :=
        if has_dlna_op > 0 then
          addResult st "DLNA Operations Parameter" TestCategory.METADATA
            TestStatus.PASS
            (toString has_dlna_op ++ "/" ++ toString total ++
             " resources have DLNA.ORG_OP (seek support flags)") [] 1
        else st
      if has_dlna_flags > 0 then
        if invalid_flags ≠ [] then
          addResult st "DLNA Flags Format" TestCategory.METADATA TestStatus.WARN
            (toString invalid_flags.length ++
             " resources have malformed DLNA.ORG_FLAGS")
            [("errors", DetailValue.strList (invalid_flags.take 5))] 1
        else
          addResult st "DLNA Flags Format" TestCategory.METADATA TestStatus.PASS
            (toString has_dlna_flags ++ "/" ++ toString total ++
             " resources have valid DLNA.ORG_FLAGS (32 hex chars)")
            [("examples", DetailValue.strList valid_flags_examples)] 1
      else st

/-- TestSuite._run_metadata_tests: completeness checks over the browsed-item
collection, then the Unicode and DLNA-flags checks. -/
def run_metadata_tests (st : SuiteState) : SuiteState :=
  if st.browsed_items = [] then
    addResult st "Metadata Availability" TestCategory.METADATA TestStatus.SKIP
      "No items available for metadata testing" [] 1
  else
    let its := st.browsed_items
    let containers := its.filter (fun i => i.is_container)
    let media_items := its.filter (fun i => ¬ i.is_container)
    let total := its.length
    let items_with_id := (its.filter (fun i => i.id ≠ "")).length
    let items_with_title := (its.filter (fun i => i.title ≠ "")).length
    let items_with_class := (its.filter (fun i => i.itemClass ≠ "")).length
    let st :=
      if items_with_id = total then
        addResult st "Item IDs" TestCategory.METADATA TestStatus.PASS
          ("All " ++ toString total ++ " items have IDs") [] 1
      else
        addResult st "Item IDs" TestCategory.METADATA TestStatus.FAIL
          (toString (total - items_with_id) ++ "/" ++ toString total ++
           " items missing IDs") [] 1
    let st :=
      if items_with_title = total then
        addResult st "Item Titles" TestCategory.METADATA TestStatus.PASS
          ("All " ++ toString total ++ " items have titles") [] 1
      else
        addResult st "Item Titles" TestCategory.METADATA TestStatus.WARN
          (toString (total - items_with_title) ++ "/" ++ toString total ++
           " items missing titles") [] 1
    let st :=
      if items_with_class = total then
        addResult st "Item Classes" TestCategory.METADATA TestStatus.PASS
          ("All " ++ toString total ++ " items have UPnP classes") [] 1
      else
        addResult st "Item Classes" TestCategory.METADATA TestStatus.WARN
          (toString (total - items_with_class) ++ "/" ++ toString total ++
           " items missing UPnP class") [] 1
    let st :=
      if containers ≠ [] then
        let with_child_count :=
          (containers.filter (fun c => c.child_count.isSome)).length
        if with_child_count = containers.length then
          addResult st "Container childCount" TestCategory.METADATA TestStatus.PASS
            ("All " ++ toString containers.length ++ " containers have childCount")
            [] 1
        else
          addResult st "Container childCount" TestCategory.METADATA TestStatus.WARN
            (toString (containers.length - with_child_count) ++ "/" ++
             toString containers.length ++ " containers missing childCount") [] 1
      else st
    let st :=
      if media_items ≠ [] then
        let with_resources := (media_items.filter (fun i => i.resources ≠ [])).length
        let st :=
          if with_resources = media_items.length then
            addResult st "Media Resources" TestCategory.METADATA TestStatus.PASS
              ("All " ++ toString media_items.length ++
               " media items have resources") [] 1
          else if with_resources > 0 then
            addResult st "Media Resources" TestCategory.METADATA TestStatus.WARN
              (toString (media_items.length - with_resources) ++ "/" ++
               toString media_items.length ++ " media items missing resources") [] 1
          else
            addResult st "Media Resources" TestCategory.METADATA TestStatus.FAIL
              "No media items have resources defined" [] 1
        let all_resources := media_items.flatMap (fun i => i.resources)
        if all_resources ≠ [] then
          let with_protocol_info :=
            (all_resources.filter (fun r => truthy (r.lookup "protocol_info"))).length
          let st :=
            if with_protocol_info = all_resources.length then
              addResult st "Resource protocolInfo" TestCategory.METADATA
                TestStatus.PASS
                ("All " ++ toString all_resources.length ++
                 " resources have protocolInfo") [] 1
            else
              addResult st "Resource protocolInfo" TestCategory.METADATA
                TestStatus.WARN
                (toString (all_resources.length - with_protocol_info) ++ "/" ++
                 toString all_resources.length ++
                 " resources missing protocolInfo") [] 1
          let audio_video_items := media_items.filter
            (fun i => i.itemClass ≠ "" ∧
              (strContains i.itemClass ("audioItem") ∨
               strContains i.itemClass ("videoItem")))
          let st :=
            if audio_video_items ≠ [] then
              let av_resources := audio_video_items.flatMap (fun i => i.resources)
              let with_duration :=
                (av_resources.filter (fun r => truthy (r.lookup "duration"))).length
              if with_duration = av_resources.length then
                addResult st "Resource Duration" TestCategory.METADATA
                  TestStatus.PASS
                  ("All " ++ toString av_resources.length ++
                   " audio/video resources have duration") [] 1
              else if with_duration > 0 then
                addResult st "Resource Duration" TestCategory.METADATA
                  TestStatus.WARN
                  (toString (av_resources.length - with_duration) ++ "/" ++
                   toString av_resources.length ++
                   " audio/video resources missing duration") [] 1
              else
                addResult st "Resource Duration" TestCategory.METADATA
                  TestStatus.FAIL
                  "No audio/video resources have duration metadata" [] 1
            else st
          let with_size :=
            (all_resources.filter (fun r => truthy (r.lookup "size"))).length
          let st :=
            if with_size = all_resources.length then
              addResult st "Resource Size" TestCategory.METADATA TestStatus.PASS
                ("All " ++ toString all_resources.length ++
                 " resources have size") [] 1
            else if with_size > 0 then
              addResult st "Resource Size" TestCategory.METADATA TestStatus.WARN
                (toString (all_resources.length - with_size) ++ "/" ++
                 toString all_resources.length ++ " resources missing size") [] 1
            else
              addResult st "Resource Size" TestCategory.METADATA TestStatus.WARN
                "No resources have size metadata (recommended)" [] 1
          let audio_items := media_items.filter
            (fun i => i.itemClass ≠ "" ∧ strContains i.itemClass ("audioItem"))
          let st :=
            if audio_items ≠ [] then
              let audio_resources := audio_items.flatMap (fun i => i.resources)
              let with_bitrate :=
                (audio_resources.filter (fun r => truthy (r.lookup "bitrate"))).length
              let with_sample_freq :=
                (audio_resources.filter
                  (fun r => truthy (r.lookup "sample_frequency"))).length
              if with_bitrate > 0 ∨ with_sample_freq > 0 then
                addResult st "Audio Metadata" TestCategory.METADATA TestStatus.PASS
                  ("Audio resources have bitrate (" ++ toString with_bitrate ++
                   "/" ++ toString audio_resources.length ++
                   ") and/or sampleFrequency (" ++ toString with_sample_freq ++
                   "/" ++ toString audio_resources.length ++ ")") [] 1
              else
                addResult st "Audio Metadata" TestCategory.METADATA TestStatus.WARN
                  "Audio resources missing bitrate and sampleFrequency metadata"
                  [] 1
            else st
          let video_items := media_items.filter
            (fun i => i.itemClass ≠ "" ∧ strContains i.itemClass ("videoItem"))
          if video_items ≠ [] then
            let video_resources := video_items.flatMap (fun i => i.resources)
            let with_resolution :=
              (video_resources.filter (fun r => truthy (r.lookup "resolution"))).length
            if with_resolution = video_resources.length then
              addResult st "Video Resolution" TestCategory.METADATA TestStatus.PASS
                ("All " ++ toString video_resources.length ++
                 " video resources have resolution") [] 1
            else if with_resolution > 0 then
              addResult st "Video Resolution" TestCategory.METADATA TestStatus.WARN
                (toString (video_resources.length - with_resolution) ++ "/" ++
                 toString video_resources.length ++
                 " video resources missing resolution") [] 1
            else
              addResult st "Video Resolution" TestCategory.METADATA TestStatus.WARN
                "No video resources have resolution metadata" [] 1
          else st
        else st
      else st
    let classes :=
      (its.filterMap (fun i => if i.itemClass ≠ "" then some i.itemClass else none)).dedup
    let valid_classes := classes.filter (fun cl => strStartsWith cl "object.")
    let st :=
      if valid_classes.length = classes.length ∧ classes ≠ [] then
        addResult st "UPnP Class Format" TestCategory.METADATA TestStatus.PASS
          ("All classes follow object.* format: " ++
           String.intercalate ", " (classes.take 5)) [] 1
      else if valid_classes ≠ [] then
        addResult st "UPnP Class Format" TestCategory.METADATA TestStatus.WARN
          "Some classes do not follow object.* format"
          [("valid", DetailValue.strList valid_classes),
           ("invalid", DetailValue.strList
              (classes.filter (fun cl => ¬ strStartsWith cl "object.")))] 1
      else st
    let st := test_unicode_handling st
    test_dlna_flags media_items st

/-- First-resource URL of an item when it is truthy, as the paired loops over
resources with index below one compute it. -/
def firstResUrl (i : MediaItem) : Option String :=
  match i.resources.head? with
  | some r =>
    match r.lookup "url" with
    | some u => if u = "" then none else some u
    | none => none
  | none => none

/-- Per-URL outcome of the ranged 4KB fetch in _test_concurrent_access:
success flag and error text (the static part for an exception).  The
completion order of the thread pool is modelled as submission order; it
affects only the order of the collected error strings. -/
def concurrentOutcome (w : World) (url : String) : Bool × Option String :=
  match w.rangeGet4k url with
  | some code =>
    if code = 200 ∨ code = 206 then (true, none)
    else (false, some ("Status " ++ toString code))
  | none => (false, some "")

/-- TestSuite._test_concurrent_access. -/
def test_concurrent_access (c : SuiteCfg) (media_items : List MediaItem)
    (st : SuiteState) : SuiteState :=
  let test_urls :=
    ((media_items.take 10).filterMap firstResUrl).map (make_url c.world.baseUrl)
  if test_urls.length < 2 then
    addResult st "Concurrent Access" TestCategory.MEDIA_RESOURCES TestStatus.SKIP
      "Not enough resources available to test concurrency" [] 1
  else
    let num_concurrent := min 5 test_urls.length
    let urls_to_test := test_urls.take num_concurrent
    let outcomes := urls_to_test.map (concurrentOutcome c.world)
    let successful := (outcomes.filter (fun o => o.1)).length
    let failed := num_concurrent - successful
    let errors := outcomes.filterMap (fun o => o.2)
    if successful = num_concurrent then
      addResult st "Concurrent Access" TestCategory.MEDIA_RESOURCES TestStatus.PASS
        ("All " ++ toString num_concurrent ++ " concurrent requests succeeded")
        [("concurrent_requests", DetailValue.int num_concurrent),
         ("avg_response_time", DetailValue.rat 0)] (3 / 2)
    else if successful > 0 then
      addResult st "Concurrent Access" TestCategory.MEDIA_RESOURCES TestStatus.WARN
        (toString successful ++ "/" ++ toString num_concurrent ++
         " concurrent requests succeeded")
        [("successful", DetailValue.int successful),
         ("failed", DetailValue.int failed),
         ("errors", DetailValue.strList (errors.take 3))] (3 / 2)
    else
      addResult st "Concurrent Access" TestCategory.MEDIA_RESOURCES TestStatus.FAIL
        ("All " ++ toString num_concurrent ++ " concurrent requests failed")
        [("errors", DetailValue.strList (errors.take 3))] (3 / 2)

/-- TestSuite._run_media_resource_tests: HEAD accessibility over up to five
sampled resources, one ranged GET, then the concurrent-access check. -/
def run_media_resource_tests (c : SuiteCfg) (st : SuiteState) : SuiteState :=
  let media_items :=
    st.browsed_items.filter (fun i => ¬ i.is_container ∧ i.resources ≠ [])
  if media_items = [] then
    addResult st "Resource Accessibility" TestCategory.MEDIA_RESOURCES
      TestStatus.SKIP "No media items with resources available for testing" [] 1
  else
    let test_items := media_items.take 5
    let tested_urls := test_items.filterMap firstResUrl
    let total_tested := tested_urls.length
    let accessible_count :=
      (tested_urls.filter (check_resource_headers c.world)).length
    let st :=
      if total_tested > 0 then
        if accessible_count = total_tested then
          addResult st "Resource Accessibility" TestCategory.MEDIA_RESOURCES
            TestStatus.PASS
            ("All " ++ toString total_tested ++ " tested resources are accessible")
            [] (3 / 2)
        else if accessible_count > 0 then
          addResult st "Resource Accessibility" TestCategory.MEDIA_RESOURCES
            TestStatus.WARN
            (toString accessible_count ++ "/" ++ toString total_tested ++
             " tested resources are accessible") [] (3 / 2)
        else
          addResult st "Resource Accessibility" TestCategory.MEDIA_RESOURCES
            TestStatus.FAIL
            ("None of " ++ toString total_tested ++
             " tested resources are accessible") [] (3 / 2)
      else st
    let st :=
      match test_items.head? with
      | some item =>
        match firstResUrl item with
        | some url =>
          match fetch_resource c.world url with
          | some _ =>
            addResult st "Range Request Support" TestCategory.MEDIA_RESOURCES
              TestStatus.PASS "Server supports partial content requests" [] 1
          | none =>
            addResult st "Range Request Support" TestCategory.MEDIA_RESOURCES
              TestStatus.WARN
              "Server may not support range requests (seeking might not work)" [] 1
        | none => st
      | none => st
    test_concurrent_access c media_items st

/-- TestSuite._run_protocol_compliance_tests.  The source decides the
Error Handling status by whether a body came back but words the message by
lxml element truthiness, which is childlessness. -/
def run_protocol_compliance_tests (c : SuiteCfg) (st : SuiteState) : SuiteState :=
  let st :=
    match st.tester.content_directory with
    | some cd =>
      let body := soap_request c.world cd.control_url cd.service_type "Browse"
        [("ObjectID", "INVALID_ID_THAT_SHOULD_NOT_EXIST_12345")]
      let truthyBody : Bool :=
        match body with
        | some b => !b.children.isEmpty
        | none => false
      addResult st "Error Handling" TestCategory.PROTOCOL_COMPLIANCE
        (if body.isSome then TestStatus.PASS else TestStatus.WARN)
        (if truthyBody then "Server handles invalid requests gracefully"
         else "Server may not handle invalid requests gracefully") [] 1
    | none => st
  let st :=
    match st.tester.device_description_url with
    | some url =>
      match c.world.head url with
      | some resp =>
        if resp.status = 200 then
          addResult st "HTTP HEAD Support" TestCategory.PROTOCOL_COMPLIANCE
            TestStatus.PASS "Server supports HTTP HEAD requests" [] 1
        else
          addResult st "HTTP HEAD Support" TestCategory.PROTOCOL_COMPLIANCE
            TestStatus.WARN
            ("HTTP HEAD returned status " ++ toString resp.status) [] 1
      | none =>
        addResult st "HTTP HEAD Support" TestCategory.PROTOCOL_COMPLIANCE
          TestStatus.WARN "Server may not support HTTP HEAD requests" [] 1
    | none => st
  let st :=
    match st.tester.device_description_url with
    | some url =>
      match c.world.get url with
      | some resp =>
        let content_type := resp.contentType.getD ""
        if strContains (strToLower content_type) ("xml") then
          addResult st "XML Content-Type" TestCategory.PROTOCOL_COMPLIANCE
            TestStatus.PASS ("Correct Content-Type for XML: " ++ content_type) [] 1
        else
          addResult st "XML Content-Type" TestCategory.PROTOCOL_COMPLIANCE
            TestStatus.WARN
            ("Non-standard Content-Type for XML: " ++ content_type) [] 1
      | none => st
    | none => st
  match st.tester.content_directory with
  | some _ =>
    let id1 := get_system_update_id c.world st.tester
    let id2 := get_system_update_id c.world st.tester
    match id1, id2 with
    | some a, some b =>
      if a = b then
        addResult st "SystemUpdateID Consistency" TestCategory.PROTOCOL_COMPLIANCE
          TestStatus.PASS "SystemUpdateID is consistent between requests" [] 1
      else
        addResult st "SystemUpdateID Consistency" TestCategory.PROTOCOL_COMPLIANCE
          TestStatus.WARN
          ("SystemUpdateID changed between requests: " ++ toString a ++ " -> " ++
           toString b) [] 1
    | _, _ => st
  | none => st

/-- Fresh suite state over a tester session, as TestSuite.__init__ and the
result reset at the top of run_all_tests leave it. -/
def initSuite (ts : TesterState) : SuiteState :=
  ⟨ts, [], [], []⟩

/-- TestSuite.run_all_tests: the eight categories in dependency order. -/
def run_all_tests (c : SuiteCfg) (ts : TesterState) : SuiteState :=
  let st := initSuite ts
  let st := run_connectivity_tests c.world st
  let st := run_device_description_tests c.world st
  let st := run_content_directory_tests c.world st
  let st := run_connection_manager_tests c.world st
  let st := run_browsing_tests c st
  let st := run_metadata_tests st
  let st := run_media_resource_tests c st
  run_protocol_compliance_tests c st

/-- A world in which every HTTP request raises: the unreachable server. -/
def unreachableWorld : World :=
  { baseUrl := "http://192.0.2.1:9999"
    get := fun _ => none
    head := fun _ => none
    post := fun _ _ _ _ => none
    rangeGet := fun _ => none
    rangeGet4k := fun _ => none
    parseXml := fun _ => none
    unescape := fun s => s }

/-- Suite configuration over the unreachable server, default mode. -/
def unreachCfg : SuiteCfg :=
  { world := unreachableWorld, full_scan := false, max_items := 1000 }

/-- A SKIP result used to instantiate the SKIP-neutrality claim. -/
def demoSkip : TestResult :=
  { name := "Demo Skip", category := TestCategory.BROWSING,
    status := TestStatus.SKIP, message := "", details := [], weight := 1 }

/-- A FAIL result used to instantiate the monotonicity claim. -/
def demoFail : TestResult :=
  { name := "Demo Fail", category := TestCategory.BROWSING,
    status := TestStatus.FAIL, message := "", details := [], weight := 2 }

/-- A PASS result used to build concrete result lists. -/
def demoPass : TestResult :=
  { name := "Demo Pass", category := TestCategory.BROWSING,
    status := TestStatus.PASS, message := "", details := [], weight := 1 }

/-- Specification-side notion for the ordering law: the container and item
elements of a parsed DIDL document in their original interleaved document
order. -/
def didlDocOrder (root : Elem) : List Elem :=
  root.descendants.filter
    (fun e => e.tag = didlContainerTag ∨ e.tag = didlItemTag)

/-- An example DIDL element with only an id and a parentID attribute. -/
def exElem (tg idv : String) : Elem :=
  Elem.node tg [("id", idv), ("parentID", "0")] none []

/-- Example DIDL document whose children stand in document order item I1,
container C1, item I2, container C2. -/
def exDidlRoot : Elem :=
  Elem.node (qn nsDidl "DIDL-Lite") [] none
    [exElem didlItemTag "I1", exElem didlContainerTag "C1",
     exElem didlItemTag "I2", exElem didlContainerTag "C2"]

/-- World whose XML parser yields the example document for one fixed text. -/
def exDidlWorld : World :=
  { unreachableWorld with
      parseXml := fun t => if t = "didl-example" then some exDidlRoot else none }

/-- SOAP response envelope whose Body holds an action response with a single
empty capabilities element (text absent, as lxml reads an empty element). -/
def capsRoot (action : String) : Elem :=
  Elem.node "Envelope" [] none
    [Elem.node soapBodyTag [] none
      [Elem.node (qn nsCDS (action ++ "Response")) [] none
        [Elem.node
          (qn nsCDS (if action = "GetSearchCapabilities" then "SearchCaps" else "SortCaps"))
          [] none []]]]

/-- Server that answers every SOAP action with status 200 and the empty
capabilities envelope for that action. -/
def capsWorld : World :=
  { unreachableWorld with
      post := fun _ _ action _ =>
        some { status := 200, text := "", xml := some (capsRoot action),
               contentType := none } }

/-- A cached ContentDirectory service description. -/
def cdsService : ServiceInfo :=
  { service_type := nsCDS
    service_id := "urn:upnp-org:serviceId:ContentDirectory"
    scpd_url := "/cds.xml"
    control_url := "/control"
    event_sub_url := "/events"
    actions := []
    state_variables := [] }

/-- Session with the ContentDirectory cached. -/
def cdsTester : TesterState :=
  { initTester with content_directory := some cdsService }

/-- The Body element that capsWorld returns for a Browse action. -/
def capsBrowseBody : Elem :=
  Elem.node soapBodyTag [] none
    [Elem.node (qn nsCDS "BrowseResponse") [] none
      [Elem.node (qn nsCDS "SortCaps") [] none []]]

/-- A protocolInfo whose 4th field holds a well-formed 32-hex flags value. -/
def c8GoodPI : String :=
  "http-get:*:audio/mpeg:DLNA.ORG_FLAGS=01700000000000000000000000000000"

/-- A protocolInfo whose 4th field holds a malformed 3-character value. -/
def c8BadPI : String := "http-get:*:audio/mpeg:DLNA.ORG_FLAGS=017"

/-- A media item with one resource carrying the malformed protocolInfo. -/
def c8BadItem : MediaItem :=
  { id := "i1", parent_id := "0", title := "t",
    itemClass := "object.item.audioItem.musicTrack", restricted := true,
    resources := [[("url", "http://h/x.mp3"), ("protocol_info", c8BadPI)]],
    metadata := [], is_container := false, child_count := none }

/-- A DIDL container element that every Browse page of the cyclic world
returns: the content graph is a self-loop. -/
def cycContainerElem : Elem :=
  Elem.node didlContainerTag [("id", "c1"), ("parentID", "0")] none []

/-- The DIDL document of the cyclic world. -/
def cycDidlRoot : Elem :=
  Elem.node (qn nsDidl "DIDL-Lite") [] none [cycContainerElem]

/-- The Body element of every Browse response of the cyclic world. -/
def cycBody : Elem :=
  Elem.node soapBodyTag [] none
    [Elem.node (qn nsCDS "BrowseResponse") [] none
      [Elem.node (qn nsCDS "Result") [] (some "cycdidl") [],
       Elem.node (qn nsCDS "NumberReturned") [] (some "1") [],
       Elem.node (qn nsCDS "TotalMatches") [] (some "1") []]]

/-- A server whose every Browse response names one sub-container that loops
back to itself: a cyclic container graph. -/
def cycWorld : World :=
  { baseUrl := "http://192.0.2.5:1900"
    get := fun _ => none
    head := fun _ => none
    post := fun _ _ action _ =>
      if action = "Browse" then
        some { status := 200, text := "",
               xml := some (Elem.node "Envelope" [] none [cycBody]),
               contentType := none }
      else none
    rangeGet := fun _ => none
    rangeGet4k := fun _ => none
    parseXml := fun t => if t = "cycdidl" then some cycDidlRoot else none
    unescape := fun s => s }

/-- Full-scan suite configuration over the cyclic world. -/
def cycCfg : SuiteCfg :=
  { world := cycWorld, full_scan := true, max_items := 1000 }

/-- Session against the cyclic world with the ContentDirectory cached. -/
def cycTester : TesterState :=
  { initTester with content_directory := some cdsService }

/-- Claim C1: get_score computes total score as the sum of the per-result
contributions (PASS gives the weight, WARN half the weight, FAIL and SKIP
nothing), maximum score as the sum of non-SKIP weights, and the grade from
the percentage (zero when the maximum is zero) by inclusive lower bounds: a
percentage of exactly 90 grades A, 89.99 grades B+, and a zero maximum
score yields grade F with no division error. -/
theorem C1_get_score_spec (results : List TestResult) :
    (get_score results).1 =
      (results.map (fun r =>
        match r.status with
        | TestStatus.PASS => r.weight
        | TestStatus.WARN => r.weight * (1 / 2)
        | TestStatus.FAIL => 0
        | TestStatus.SKIP => 0)).sum ∧
    (get_score results).2.1 =
      ((results.filter (fun r => r.status ≠ TestStatus.SKIP)).map
        (fun r => r.weight)).sum ∧
    (get_score results).2.2 =
      gradeOf (if (get_score results).2.1 = 0 then 0
               else (get_score results).1 / (get_score results).2.1 * 100) ∧
    gradeOf 90 = "A" ∧
    gradeOf (8999 / 100) = "B+" ∧
    ((get_score results).2.1 = 0 → (get_score results).2.2 = "F") := by
  refine ⟨?_, rfl, rfl, by norm_num [gradeOf], by norm_num [gradeOf], ?_⟩
  · show totalScore results = _
    unfold totalScore
    congr 1
    apply List.map_congr_left
    intro r _
    cases hs : r.status <;> simp [TestResult.score, hs]
  · intro h
    have hm : maxScore results = 0 := h
    norm_num [get_score, percentage, hm, gradeOf]

/-- Witness for C1 at a concrete all-SKIP result list: the maximum score is
zero and the grade is F. -/
theorem C1_get_score_spec_witness : (get_score [demoSkip]).2.2 = "F" :=
  (C1_get_score_spec [demoSkip]).2.2.2.2.2 (by decide)

/-- Claim C6: appending a SKIP result of any weight changes neither the total
score, nor the maximum score, nor the percentage computed in get_score and
get_summary. -/
theorem C6_skip_neutral (results : List TestResult) (r : TestResult)
    (h : r.status = TestStatus.SKIP) :
    (get_score (results ++ [r])).1 = (get_score results).1 ∧
    (get_score (results ++ [r])).2.1 = (get_score results).2.1 ∧
    percentage (results ++ [r]) = percentage results ∧
    (get_summary (results ++ [r])).percent = (get_summary results).percent := by
  have hts : totalScore (results ++ [r]) = totalScore results := by
    simp [totalScore, TestResult.score, h]
  have hms : maxScore (results ++ [r]) = maxScore results := by
    simp [maxScore, List.filter_append, h]
  refine ⟨hts, hms, ?_, ?_⟩
  · simp [percentage, hts, hms]
  · simp [get_summary, hts, hms]

/-- Witness for C6: appending a concrete SKIP result to a one-PASS list
leaves total, maximum and percentages unchanged. -/
theorem C6_skip_neutral_witness :
    (get_score ([demoPass] ++ [demoSkip])).1 = (get_score [demoPass]).1 ∧
    (get_score ([demoPass] ++ [demoSkip])).2.1 = (get_score [demoPass]).2.1 ∧
    percentage ([demoPass] ++ [demoSkip]) = percentage [demoPass] ∧
    (get_summary ([demoPass] ++ [demoSkip])).percent =
      (get_summary [demoPass]).percent :=
  C6_skip_neutral [demoPass] demoSkip (by decide)

/-- Claim C7: for a result list with a designated FAIL member, flipping that
member to PASS raises the total score by exactly its weight and leaves the
maximum score unchanged, and flipping it to WARN raises the total score by
exactly half its weight. -/
theorem C7_fail_to_pass (l₁ l₂ : List TestResult) (r : TestResult)
    (h : r.status = TestStatus.FAIL) :
    (get_score (l₁ ++ { r with status := TestStatus.PASS } :: l₂)).1 =
      (get_score (l₁ ++ r :: l₂)).1 + r.weight ∧
    (get_score (l₁ ++ { r with status := TestStatus.PASS } :: l₂)).2.1 =
      (get_score (l₁ ++ r :: l₂)).2.1 ∧
    (get_score (l₁ ++ { r with status := TestStatus.WARN } :: l₂)).1 =
      (get_score (l₁ ++ r :: l₂)).1 + r.weight * (1 / 2) := by
  refine ⟨?_, ?_, ?_⟩
  · simp [get_score, totalScore, TestResult.score, h]
    ring
  · simp [get_score, maxScore, List.filter_append, h]
  · simp [get_score, totalScore, TestResult.score, h]
    ring

/-- Witness for C7 at a concrete list: flipping the middle FAIL to PASS adds
its weight of two to the total and keeps the maximum. -/
theorem C7_fail_to_pass_witness :
    (get_score ([demoPass] ++ { demoFail with status := TestStatus.PASS } :: [demoSkip])).1 =
      (get_score ([demoPass] ++ demoFail :: [demoSkip])).1 + demoFail.weight ∧
    (get_score ([demoPass] ++ { demoFail with status := TestStatus.PASS } :: [demoSkip])).2.1 =
      (get_score ([demoPass] ++ demoFail :: [demoSkip])).2.1 ∧
    (get_score ([demoPass] ++ { demoFail with status := TestStatus.WARN } :: [demoSkip])).1 =
      (get_score ([demoPass] ++ demoFail :: [demoSkip])).1 + demoFail.weight * (1 / 2) :=
  C7_fail_to_pass [demoPass] [demoSkip] demoFail (by decide)

/-- Filtering by one tag absorbs a previous filter by any predicate that the
tag implies. -/
theorem filter_tag_absorb (l : List Elem) (p : Elem → Prop) [DecidablePred p]
    (t : String) (hp : ∀ e, e.tag = t → p e) :
    (l.filter (fun e => decide (p e))).filter (fun e => e.tag = t) =
      l.filter (fun e => e.tag = t) := by
  induction l with
  | nil => rfl
  | cons e es ih =>
    by_cases ht : e.tag = t
    · have hpe : p e := hp e ht
      simp [ht, hpe, ih]
    · by_cases hpe : p e <;> simp [ht, hpe, ih]

/-- Claim C3: the DIDL parser returns all containers first, in document
order, then all items, in document order, never the interleaved document
order; on the example document with order I1, C1, I2, C2 it returns
C1, C2, I1, I2. -/
theorem C3_didl_ordering (w : World) (text : String) (root : Elem)
    (hparse : w.parseXml
      (if strContains text ("&lt;") then w.unescape text else text) = some root) :
    parse_didl_lite w text =
      ((didlDocOrder root).filter (fun e => e.tag = didlContainerTag)).map
        (fun e => parse_didl_item e true) ++
      ((didlDocOrder root).filter (fun e => e.tag = didlItemTag)).map
        (fun e => parse_didl_item e false) ∧
    (parse_didl_lite exDidlWorld "didl-example").map (fun i => i.id) =
      ["C1", "C2", "I1", "I2"] ∧
    (parse_didl_lite exDidlWorld "didl-example").map (fun i => i.id) ≠
      ["I1", "C1", "I2", "C2"] := by
  refine ⟨?_, by decide, by decide⟩
  simp only [parse_didl_lite, hparse]
  unfold didlDocOrder Elem.findallDesc
  rw [show (fun e : Elem => decide (e.tag = didlContainerTag ∨ e.tag = didlItemTag))
        = (fun e : Elem => decide ((fun x : Elem => x.tag = didlContainerTag ∨ x.tag = didlItemTag) e)) from rfl]
  rw [filter_tag_absorb root.descendants _ didlContainerTag (fun e h => Or.inl h),
      filter_tag_absorb root.descendants _ didlItemTag (fun e h => Or.inr h)]

/-- Witness for C3 at the example document: the decomposition holds there. -/
theorem C3_didl_ordering_witness :
    parse_didl_lite exDidlWorld "didl-example" =
      ((didlDocOrder exDidlRoot).filter (fun e => e.tag = didlContainerTag)).map
        (fun e => parse_didl_item e true) ++
      ((didlDocOrder exDidlRoot).filter (fun e => e.tag = didlItemTag)).map
        (fun e => parse_didl_item e false) :=
  (C3_didl_ordering exDidlWorld "didl-example" exDidlRoot (by rfl)).1

/-- Claim C9 (code bug): with a ContentDirectory cached, the SOAP action
against capsWorld succeeds and returns a body, yet get_search_capabilities
and get_sort_capabilities return the failure marker, because the source
returns the raw element text (absent for an empty element) instead of the
empty string.  The absence value is therefore not reserved for SOAP
failure. -/
theorem C9_empty_caps_element_bug :
    (soap_request capsWorld cdsService.control_url cdsService.service_type
        "GetSearchCapabilities" []).isSome = true ∧
    (soap_request capsWorld cdsService.control_url cdsService.service_type
        "GetSortCapabilities" []).isSome = true ∧
    get_search_capabilities capsWorld cdsTester = none ∧
    get_sort_capabilities capsWorld cdsTester = none := by
  refine ⟨rfl, rfl, rfl, rfl⟩

/-- A present Result element with absent text yields the empty triple. -/
theorem browseParseBody_empty_text (w : World) (body re : Elem)
    (h1 : cdsLookup body "Result" = some re) (h2 : re.text = none) :
    browseParseBody w body = ([], 0, 0) := by
  simp only [browseParseBody, h1, h2]

/-- If either count fails to parse, both counts collapse to zero. -/
theorem parse_counts_default (nr tm : Option Elem)
    (h : parse_count nr = none ∨ parse_count tm = none) :
    parse_counts nr tm = (0, 0) := by
  unfold parse_counts
  rcases h with h | h
  · rw [h]
  · rw [h]
    cases parse_count nr <;> rfl

/-- A Result element with text but an unparseable count yields the parsed
items with both counts zero. -/
theorem browseParseBody_bad_counts (w : World) (body re : Elem) (t : String)
    (h1 : cdsLookup body "Result" = some re) (h2 : re.text = some t)
    (h3 : parse_count (cdsLookup body "NumberReturned") = none ∨
          parse_count (cdsLookup body "TotalMatches") = none) :
    browseParseBody w body = (parse_didl_lite w t, 0, 0) := by
  simp only [browseParseBody, h1, h2, parse_counts_default _ _ h3]

/-- Claim C4: with a ContentDirectory cached, browse and search return the
failure marker exactly when the SOAP request fails, and each of the listed
failure causes (transport error, non-2xx status, XML parse failure) makes
the SOAP request fail; a present Result element with absent text returns
the empty triple rather than failure; and an unparseable NumberReturned or
TotalMatches makes both counts default to zero while the call still
succeeds. -/
theorem C4_browse_search_failure_semantics (w : World) (st : TesterState)
    (cd : ServiceInfo) (hcd : st.content_directory = some cd)
    (oid bf fs sc : String) (si rc : Int) :
    (browse w st oid bf fs si rc sc = none ↔
      soap_request w cd.control_url cd.service_type "Browse"
        (browseArgs oid bf fs si rc sc) = none) ∧
    (w.post (make_url w.baseUrl cd.control_url) cd.service_type "Browse"
        (browseArgs oid bf fs si rc sc) = none →
      browse w st oid bf fs si rc sc = none) ∧
    (∀ resp, w.post (make_url w.baseUrl cd.control_url) cd.service_type "Browse"
        (browseArgs oid bf fs si rc sc) = some resp →
      ¬ is2xx resp.status → browse w st oid bf fs si rc sc = none) ∧
    (∀ resp, w.post (make_url w.baseUrl cd.control_url) cd.service_type "Browse"
        (browseArgs oid bf fs si rc sc) = some resp →
      is2xx resp.status → resp.xml = none → browse w st oid bf fs si rc sc = none) ∧
    (∀ body re, soap_request w cd.control_url cd.service_type "Browse"
        (browseArgs oid bf fs si rc sc) = some body →
      cdsLookup body "Result" = some re → re.text = none →
      browse w st oid bf fs si rc sc = some ([], 0, 0)) ∧
    (∀ body re t, soap_request w cd.control_url cd.service_type "Browse"
        (browseArgs oid bf fs si rc sc) = some body →
      cdsLookup body "Result" = some re → re.text = some t →
      (parse_count (cdsLookup body "NumberReturned") = none ∨
       parse_count (cdsLookup body "TotalMatches") = none) →
      browse w st oid bf fs si rc sc = some (parse_didl_lite w t, 0, 0)) ∧
    (search w st oid bf fs si rc sc = none ↔
      soap_request w cd.control_url cd.service_type "Search"
        (searchArgs oid bf fs si rc sc) = none) ∧
    (∀ body re, soap_request w cd.control_url cd.service_type "Search"
        (searchArgs oid bf fs si rc sc) = some body →
      cdsLookup body "Result" = some re → re.text = none →
      search w st oid bf fs si rc sc = some ([], 0, 0)) ∧
    (∀ body re t, soap_request w cd.control_url cd.service_type "Search"
        (searchArgs oid bf fs si rc sc) = some body →
      cdsLookup body "Result" = some re → re.text = some t →
      (parse_count (cdsLookup body "NumberReturned") = none ∨
       parse_count (cdsLookup body "TotalMatches") = none) →
      search w st oid bf fs si rc sc = some (parse_didl_lite w t, 0, 0)) := by
  refine ⟨?_, ?_, ?_, ?_, ?_, ?_, ?_, ?_, ?_⟩
  · cases hs : soap_request w cd.control_url cd.service_type "Browse"
      (browseArgs oid bf fs si rc sc) <;> simp [browse, hcd, hs]
  · intro hpost
    have hs : soap_request w cd.control_url cd.service_type "Browse"
        (browseArgs oid bf fs si rc sc) = none := by
      unfold soap_request
      rw [hpost]
    simp [browse, hcd, hs]
  · intro resp hpost h2
    have hs : soap_request w cd.control_url cd.service_type "Browse"
        (browseArgs oid bf fs si rc sc) = none := by
      unfold soap_request
      rw [hpost]
      simp [h2]
    simp [browse, hcd, hs]
  · intro resp hpost h2 hx
    have hs : soap_request w cd.control_url cd.service_type "Browse"
        (browseArgs oid bf fs si rc sc) = none := by
      unfold soap_request
      rw [hpost]
      simp [h2, hx]
    simp [browse, hcd, hs]
  · intro body re hs h1 h2
    simp [browse, hcd, hs, browseParseBody_empty_text w body re h1 h2]
  · intro body re t hs h1 h2 h3
    simp [browse, hcd, hs, browseParseBody_bad_counts w body re t h1 h2 h3]
  · cases hs : soap_request w cd.control_url cd.service_type "Search"
      (searchArgs oid bf fs si rc sc) <;> simp [search, hcd, hs]
  · intro body re hs h1 h2
    simp [search, hcd, hs, browseParseBody_empty_text w body re h1 h2]
  · intro body re t hs h1 h2 h3
    simp [search, hcd, hs, browseParseBody_bad_counts w body re t h1 h2 h3]

/-- Witness for C4 at the concrete capsWorld session: browse fails exactly
when the SOAP request does. -/
theorem C4_browse_search_failure_semantics_witness :
    browse capsWorld cdsTester "0" "BrowseDirectChildren" "*" 0 100 "" = none ↔
      soap_request capsWorld cdsService.control_url cdsService.service_type
        "Browse" (browseArgs "0" "BrowseDirectChildren" "*" 0 100 "") = none :=
  (C4_browse_search_failure_semantics capsWorld cdsTester cdsService rfl
    "0" "BrowseDirectChildren" "*" "" 0 100).1

/-- Claim C10: when the SOAP call succeeds but the body holds no Result
element at all (under either lookup), browse and search return the same
empty triple as for an empty container, discarding any NumberReturned or
TotalMatches values in the response. -/
theorem C10_missing_result_element (w : World) (st : TesterState)
    (cd : ServiceInfo) (hcd : st.content_directory = some cd)
    (oid bf fs sc : String) (si rc : Int) :
    (∀ body, soap_request w cd.control_url cd.service_type "Browse"
        (browseArgs oid bf fs si rc sc) = some body →
      cdsLookup body "Result" = none →
      browse w st oid bf fs si rc sc = some ([], 0, 0)) ∧
    (∀ body, soap_request w cd.control_url cd.service_type "Search"
        (searchArgs oid bf fs si rc sc) = some body →
      cdsLookup body "Result" = none →
      search w st oid bf fs si rc sc = some ([], 0, 0)) := by
  have hbody : ∀ body, cdsLookup body "Result" = none →
      browseParseBody w body = ([], 0, 0) := by
    intro body hres
    simp only [browseParseBody, hres]
  refine ⟨?_, ?_⟩
  · intro body hs hres
    simp [browse, hcd, hs, hbody body hres]
  · intro body hs hres
    simp [search, hcd, hs, hbody body hres]

/-- Witness for C10: the concrete capsWorld Browse response has no Result
element and browse returns the empty triple. -/
theorem C10_missing_result_element_witness :
    browse capsWorld cdsTester "0" "BrowseDirectChildren" "*" 0 100 "" =
      some ([], 0, 0) :=
  (C10_missing_result_element capsWorld cdsTester cdsService rfl
      "0" "BrowseDirectChildren" "*" "" 0 100).1
    capsBrowseBody (by rfl) (by rfl)

/-- The regex search succeeds at the head of a list that starts with the
flags literal followed by a hex character, capturing the maximal hex run. -/
theorem flagsSearch_at_head (l : List Char)
    (hpre : ("DLNA.ORG_FLAGS=".data).isPrefixOf l = true)
    (hhex : headIsHex (l.drop 15) = true) :
    flagsSearch l = some ((l.drop 15).takeWhile isFlagsHex) := by
  cases l with
  | nil => exact absurd hpre (by decide)
  | cons c rest =>
    unfold flagsSearch
    rw [if_pos ⟨hpre, hhex⟩]

/-- On an additional field of the shape token-equals-value with a nonempty
all-hex value, the captured flags value is exactly that value. -/
theorem pinfoFlagsValue_of_additional (pinfo v : String)
    (hadd : additionalField pinfo = some ("DLNA.ORG_FLAGS=" ++ v))
    (hne : v ≠ "") (hhex : v.data.all isFlagsHex = true) :
    pinfoFlagsValue pinfo = some v := by
  have hdata : ("DLNA.ORG_FLAGS=" ++ v).data = "DLNA.ORG_FLAGS=".data ++ v.data :=
    String.data_append _ _
  have h15 : ("DLNA.ORG_FLAGS=".data).length = 15 := rfl
  have hdrop : (("DLNA.ORG_FLAGS=" ++ v).data).drop 15 = v.data := by
    rw [hdata, ← h15]
    exact List.drop_left _ _
  have hpre : ("DLNA.ORG_FLAGS=".data).isPrefixOf (("DLNA.ORG_FLAGS=" ++ v).data) = true := by
    rw [hdata]
    exact List.isPrefixOf_iff_prefix.mpr (List.prefix_append _ _)
  have hvcons : v.data ≠ [] := by
    intro h
    exact hne (by cases v with | mk d => simp_all)
  have hcontains : strContains ("DLNA.ORG_FLAGS=" ++ v) ("DLNA.ORG_FLAGS=") = true := by
    unfold strContains
    apply List.any_eq_true.mpr
    refine ⟨0, ?_, ?_⟩
    · simp [List.mem_range]
    · simp only [List.drop_zero]
      exact hpre
  have hhead : headIsHex ((("DLNA.ORG_FLAGS=" ++ v).data).drop 15) = true := by
    rw [hdrop]
    cases hv : v.data with
    | nil => exact absurd hv hvcons
    | cons a as =>
      unfold headIsHex
      simp only [List.head?]
      have := List.all_eq_true.mp hhex a (by rw [hv]; exact List.mem_cons_self a as)
      exact this
  have htake : (v.data).takeWhile isFlagsHex = v.data :=
    List.takeWhile_eq_self_iff.mpr (fun x hx => List.all_eq_true.mp hhex x hx)
  simp only [pinfoFlagsValue, hadd, hcontains, if_true,
    flagsSearch_at_head _ hpre hhead, hdrop, htake]
  rfl

/-- A protocolInfo contributing to the invalid list carries the token. -/
theorem pinfoInvalidFlag_isSome_token (p : String)
    (h : (pinfoInvalidFlag p).isSome = true) : pinfoHasFlagsToken p = true := by
  cases hadd : additionalField p with
  | none =>
    exfalso
    simp [pinfoInvalidFlag, pinfoFlagsValue, hadd] at h
  | some add =>
    simp only [pinfoInvalidFlag, pinfoFlagsValue, hadd] at h
    simp only [pinfoHasFlagsToken, hadd]
    by_cases hc : strContains add ("DLNA.ORG_FLAGS=") = true
    · exact hc
    · simp [hc] at h

/-- Claim C8: a flags value of 32 hex characters validates as well-formed and
the 3-character value 017 is flagged malformed, both concretely and in
general for any token whose value is a nonempty hex string; and whenever at
least one malformed value exists among the collected resources, the suite
records a WARN result listing the malformed values. -/
theorem C8_dlna_flags_validation :
    pinfoValidFlag c8GoodPI = some "01700000000000000000000000000000" ∧
    pinfoInvalidFlag c8GoodPI = none ∧
    pinfoFlagsValue c8BadPI = some "017" ∧
    pinfoValidFlag c8BadPI = none ∧
    pinfoInvalidFlag c8BadPI = some "Invalid length or format: 017" ∧
    (∀ pinfo v : String, additionalField pinfo = some ("DLNA.ORG_FLAGS=" ++ v) →
      v ≠ "" → v.data.all isFlagsHex = true →
      (pinfoFlagsValue pinfo = some v ∧
       (pinfoValidFlag pinfo = some v ↔ v.length = 32) ∧
       (pinfoInvalidFlag pinfo = none ↔ v.length = 32))) ∧
    (∀ (media : List MediaItem) (st : SuiteState),
      (protocolInfosOf media).filterMap pinfoInvalidFlag ≠ [] →
      ∃ r ∈ (test_dlna_flags media st).results,
        r.name = "DLNA Flags Format" ∧ r.status = TestStatus.WARN ∧
        r.details = [("errors", DetailValue.strList
          (((protocolInfosOf media).filterMap pinfoInvalidFlag).take 5))]) := by
  refine ⟨by decide, by decide, by decide, by decide, by decide, ?_, ?_⟩
  · intro pinfo v hadd hne hhex
    have hval := pinfoFlagsValue_of_additional pinfo v hadd hne hhex
    refine ⟨hval, ?_, ?_⟩
    · simp only [pinfoValidFlag, hval]
      by_cases h32 : v.length = 32
      · simp [flagsValueValid, h32, hhex]
      · simp [flagsValueValid, h32]
    · simp only [pinfoInvalidFlag, hval]
      by_cases h32 : v.length = 32
      · simp [flagsValueValid, h32, hhex]
      · simp [flagsValueValid, h32]
  · intro media st hinv
    have hm : ¬ media = [] := by
      intro h
      exact hinv (by rw [h]; rfl)
    have hpis : ¬ protocolInfosOf media = [] := by
      intro h
      exact hinv (by rw [h]; rfl)
    have hex : ¬ ∀ a ∈ protocolInfosOf media, pinfoInvalidFlag a = none := by
      intro hall
      exact hinv (List.filterMap_eq_nil_iff.mpr hall)
    push_neg at hex
    obtain ⟨p, hpmem, hpne⟩ := hex
    have hpsome : (pinfoInvalidFlag p).isSome = true :=
      Option.isSome_iff_ne_none.mpr hpne
    have hflags : 0 < (List.filter pinfoHasFlagsToken (protocolInfosOf media)).length := by
      apply List.length_pos.mpr
      apply List.ne_nil_of_mem
      exact List.mem_filter.mpr ⟨hpmem, pinfoInvalidFlag_isSome_token p hpsome⟩
    simp only [test_dlna_flags]
    rw [if_neg hm, if_neg hpis, if_pos hflags, if_pos hinv]
    simp only [addResult]
    exact ⟨_, List.mem_append_right _ (List.mem_singleton_self _), rfl, rfl, rfl⟩

/-- Witness for C8: the two concrete classifications, and on a concrete item
list with the malformed value the suite result list holds the WARN. -/
theorem C8_dlna_flags_validation_witness :
    pinfoFlagsValue c8GoodPI = some "01700000000000000000000000000000" ∧
    1 ≤ ((test_dlna_flags [c8BadItem] (initSuite initTester)).results.filter
      (fun r => r.name = "DLNA Flags Format" ∧ r.status = TestStatus.WARN)).length := by
  constructor
  · exact (((C8_dlna_flags_validation).2.2.2.2.2.1 c8GoodPI
      "01700000000000000000000000000000" (by rfl) (by decide) (by decide))).1
  · obtain ⟨r, hrmem, h1, h2, _⟩ :=
      (C8_dlna_flags_validation).2.2.2.2.2.2 [c8BadItem] (initSuite initTester)
        (by decide)
    have hmem : r ∈ (test_dlna_flags [c8BadItem] (initSuite initTester)).results.filter
        (fun r => r.name = "DLNA Flags Format" ∧ r.status = TestStatus.WARN) :=
      List.mem_filter.mpr ⟨hrmem, by simp [h1, h2]⟩
    exact List.length_pos.mpr (List.ne_nil_of_mem hmem)

/-- Recording a result changes no other suite-state field. -/
theorem addResult_browsed (st : SuiteState) (n : String) (c : TestCategory)
    (s : TestStatus) (m : String) (d : List (String × DetailValue)) (w : ℚ) :
    (addResult st n c s m d w).browsed_items = st.browsed_items := rfl

/-- Recording a result leaves the ghost trace unchanged. -/
theorem addResult_trace (st : SuiteState) (n : String) (c : TestCategory)
    (s : TestStatus) (m : String) (d : List (String × DetailValue)) (w : ℚ) :
    (addResult st n c s m d w).trace = st.trace := rfl

/-- The BrowseMetadata block only adds a result. -/
theorem browse_metadata_check_state (c : SuiteCfg) (st : SuiteState) :
    (browse_metadata_check c st).browsed_items = st.browsed_items ∧
    (browse_metadata_check c st).trace = st.trace := by
  unfold browse_metadata_check
  repeat' split
  all_goals exact ⟨rfl, rfl⟩

/-- The pagination block only adds a result. -/
theorem pagination_check_state (c : SuiteCfg) (tm : Int) (st : SuiteState) :
    (pagination_check c tm st).browsed_items = st.browsed_items ∧
    (pagination_check c tm st).trace = st.trace := by
  unfold pagination_check
  repeat' split
  all_goals exact ⟨rfl, rfl⟩

/-- The StartingIndex block only adds a result. -/
theorem starting_index_check_state (c : SuiteCfg) (items : List MediaItem)
    (tm : Int) (st : SuiteState) :
    (starting_index_check c items tm st).browsed_items = st.browsed_items ∧
    (starting_index_check c items tm st).trace = st.trace := by
  unfold starting_index_check
  dsimp only []
  repeat' split
  all_goals exact ⟨rfl, rfl⟩

/-- The root checks only add results: browsed items and trace pass through. -/
theorem browse_root_checks_browsed (c : SuiteCfg) (items : List MediaItem)
    (tm : Int) (st : SuiteState) :
    (browse_root_checks c items tm st).browsed_items = st.browsed_items ∧
    (browse_root_checks c items tm st).trace = st.trace := by
  unfold browse_root_checks
  obtain ⟨h1, h2⟩ := browse_metadata_check_state c st
  obtain ⟨h3, h4⟩ := pagination_check_state c tm (browse_metadata_check c st)
  obtain ⟨h5, h6⟩ := starting_index_check_state c items tm
    (pagination_check c tm (browse_metadata_check c st))
  exact ⟨by rw [h5, h3, h1], by rw [h6, h4, h2]⟩

/-- Joint invariant of the bounded traversal: under a uniform page bound P on
every successful Browse, the browsed-item count never grows past the budget
plus one page, and every ghost-trace entry added records a count strictly
below the budget at a depth within the limit.  Proved by induction on the
remaining depth allowance, for every content tree the oracle describes,
cyclic container graphs included. -/
theorem trav_bound (c : SuiteCfg) (P : Nat)
    (hP : ∀ (ts : TesterState) (oid : String) (items : List MediaItem) (nr tm : Int),
      browse c.world ts oid "BrowseDirectChildren" "*" 0 100 "" = some (items, nr, tm) →
      items.length ≤ P) :
    ∀ (k depth : Nat), c.max_depth + 1 - depth = k →
      (∀ (container : MediaItem) (st : SuiteState),
        (test_recursive_browse c container depth st).browsed_items.length ≤
          max st.browsed_items.length (c.max_items + P) ∧
        ∀ e ∈ (test_recursive_browse c container depth st).trace,
          e ∈ st.trace ∨ (e.2 < c.max_items ∧ e.1 ≤ c.max_depth)) ∧
      (∀ (subs : List MediaItem) (st : SuiteState),
        (browse_sub_list c subs depth st).browsed_items.length ≤
          max st.browsed_items.length (c.max_items + P) ∧
        ∀ e ∈ (browse_sub_list c subs depth st).trace,
          e ∈ st.trace ∨ (e.2 < c.max_items ∧ e.1 ≤ c.max_depth)) := by
  intro k
  induction k with
  | zero =>
    intro depth hdep
    have hd : depth > c.max_depth := by omega
    have hrec : ∀ container st, test_recursive_browse c container depth st = st := by
      intro container st
      unfold test_recursive_browse
      rw [if_pos hd]
    constructor
    · intro container st
      rw [hrec]
      exact ⟨le_max_left _ _, fun e he => Or.inl he⟩
    · intro subs st
      induction subs generalizing st with
      | nil =>
        unfold browse_sub_list
        exact ⟨le_max_left _ _, fun e he => Or.inl he⟩
      | cons s rest ih =>
        unfold browse_sub_list
        by_cases hb : st.browsed_items.length ≥ c.max_items
        · rw [if_pos hb]
          exact ⟨le_max_left _ _, fun e he => Or.inl he⟩
        · rw [if_neg hb, hrec]
          exact ih st
  | succ k ihk =>
    intro depth hdep
    have IH := ihk (depth + 1) (by omega)
    have hA : ∀ (container : MediaItem) (st : SuiteState),
        (test_recursive_browse c container depth st).browsed_items.length ≤
          max st.browsed_items.length (c.max_items + P) ∧
        ∀ e ∈ (test_recursive_browse c container depth st).trace,
          e ∈ st.trace ∨ (e.2 < c.max_items ∧ e.1 ≤ c.max_depth) := by
      intro container st
      unfold test_recursive_browse
      by_cases hd : depth > c.max_depth
      · rw [if_pos hd]
        exact ⟨le_max_left _ _, fun e he => Or.inl he⟩
      · rw [if_neg hd]
        by_cases hb : st.browsed_items.length ≥ c.max_items
        · rw [if_pos hb]
          exact ⟨le_max_left _ _, fun e he => Or.inl he⟩
        · rw [if_neg hb]
          dsimp only []
          have hgood : ∀ e ∈ st.trace ++ [(depth, st.browsed_items.length)],
              e ∈ st.trace ∨ (e.2 < c.max_items ∧ e.1 ≤ c.max_depth) := by
            intro e he
            rcases List.mem_append.mp he with h | h
            · exact Or.inl h
            · right
              rcases List.mem_singleton.mp h with rfl
              exact ⟨by omega, by omega⟩
          split
          · rename_i r hbr
            obtain ⟨items, nr, tm⟩ := r
            have hlen : items.length ≤ P := hP st.tester container.id items nr tm hbr
            dsimp only []
            generalize hst3 :
              (if depth = 1 ∧ ¬c.full_scan = true then
                addResult
                  { st with
                      trace := st.trace ++ [(depth, st.browsed_items.length)],
                      browsed_items := st.browsed_items ++ items }
                  "Container Navigation" TestCategory.BROWSING TestStatus.PASS
                  ("Successfully browsed container " ++ container.title ++ " (" ++
                    toString nr ++ " items)") [] 1
              else
                { st with
                    trace := st.trace ++ [(depth, st.browsed_items.length)],
                    browsed_items := st.browsed_items ++ items }) = st3
            have h3b : st3.browsed_items = st.browsed_items ++ items := by
              rw [← hst3]
              split <;> rfl
            have h3t : st3.trace = st.trace ++ [(depth, st.browsed_items.length)] := by
              rw [← hst3]
              split <;> rfl
            have h3len : st3.browsed_items.length =
                st.browsed_items.length + items.length := by
              rw [h3b, List.length_append]
            have hdirect :
                st3.browsed_items.length ≤
                  max st.browsed_items.length (c.max_items + P) ∧
                ∀ e ∈ st3.trace,
                  e ∈ st.trace ∨ (e.2 < c.max_items ∧ e.1 ≤ c.max_depth) := by
              refine ⟨by omega, ?_⟩
              intro e he
              rw [h3t] at he
              exact hgood e he
            by_cases hne : (items.filter (fun i => i.is_container)) ≠ []
            · rw [if_pos hne]
              by_cases hlt : depth < c.max_depth
              · rw [dif_pos hlt]
                by_cases hf : c.full_scan
                · rw [if_pos hf]
                  obtain ⟨hl2, ht2⟩ :=
                    IH.2 (items.filter (fun i => i.is_container)) st3
                  refine ⟨by omega, ?_⟩
                  intro e he
                  rcases ht2 e he with h | h
                  · rw [h3t] at h
                    exact hgood e h
                  · exact Or.inr h
                · rw [if_neg hf]
                  cases hsubs : items.filter (fun i => i.is_container) with
                  | nil => exact absurd hsubs hne
                  | cons s rest =>
                    dsimp only []
                    obtain ⟨hl2, ht2⟩ := IH.1 s st3
                    refine ⟨by omega, ?_⟩
                    intro e he
                    rcases ht2 e he with h | h
                    · rw [h3t] at h
                      exact hgood e h
                    · exact Or.inr h
              · rw [dif_neg hlt]
                exact hdirect
            · rw [if_neg hne]
              exact hdirect
          · split
            · exact ⟨le_max_left _ _, fun e he => hgood e he⟩
            · exact ⟨le_max_left _ _, fun e he => hgood e he⟩
    refine ⟨hA, ?_⟩
    intro subs st
    induction subs generalizing st with
    | nil =>
      unfold browse_sub_list
      exact ⟨le_max_left _ _, fun e he => Or.inl he⟩
    | cons s rest ih =>
      unfold browse_sub_list
      by_cases hb : st.browsed_items.length ≥ c.max_items
      · rw [if_pos hb]
        exact ⟨le_max_left _ _, fun e he => Or.inl he⟩
      · rw [if_neg hb]
        obtain ⟨hl1, ht1⟩ := hA s st
        obtain ⟨hl2, ht2⟩ := ih (test_recursive_browse c s depth st)
        refine ⟨by omega, ?_⟩
        intro e he
        rcases ht2 e he with h | h
        · rcases ht1 e h with h' | h'
          · exact Or.inl h'
          · exact Or.inr h'
        · exact Or.inr h

/-- Claim C5: starting from an empty collection, under a uniform page bound P
on every successful Browse of the session, the whole browsing phase
accumulates at most max-items plus one page of media items; every recursive
Browse call is entered with a count strictly below the budget and at a depth
of at most 10 in full-scan mode and 3 in sample mode.  The oracle may
describe any content tree, including cyclic container graphs. -/
theorem C5_traversal_bounded (c : SuiteCfg) (st0 : SuiteState) (P : Nat)
    (hb0 : st0.browsed_items = []) (ht0 : st0.trace = [])
    (hP : ∀ (ts : TesterState) (oid : String) (items : List MediaItem) (nr tm : Int),
      browse c.world ts oid "BrowseDirectChildren" "*" 0 100 "" = some (items, nr, tm) →
      items.length ≤ P) :
    (run_browsing_tests c st0).browsed_items.length ≤ c.max_items + P ∧
    (∀ e ∈ (run_browsing_tests c st0).trace,
      e.2 < c.max_items ∧ e.1 ≤ c.max_depth) ∧
    (c.full_scan = true → ∀ e ∈ (run_browsing_tests c st0).trace, e.1 ≤ 10) ∧
    (c.full_scan = false → ∀ e ∈ (run_browsing_tests c st0).trace, e.1 ≤ 3) := by
  have hmd : (c.full_scan = true → c.max_depth = 10) ∧
      (c.full_scan = false → c.max_depth = 3) := by
    unfold SuiteCfg.max_depth
    constructor <;> intro h <;> simp [h]
  have main : (run_browsing_tests c st0).browsed_items.length ≤ c.max_items + P ∧
      ∀ e ∈ (run_browsing_tests c st0).trace,
        e.2 < c.max_items ∧ e.1 ≤ c.max_depth := by
    unfold run_browsing_tests
    split
    · exact ⟨by rw [addResult_browsed, hb0]; simp,
        fun e he => by rw [addResult_trace, ht0] at he; cases he⟩
    · split
      · exact ⟨by rw [addResult_browsed, hb0]; simp,
          fun e he => by rw [addResult_trace, ht0] at he; cases he⟩
      · rename_i root_result heq
        obtain ⟨items, nr, tm⟩ := root_result
        dsimp only []
        have hroot : items.length ≤ P := hP st0.tester "0" items nr tm heq
        set st1 := addResult st0 "Browse Root" TestCategory.BROWSING TestStatus.PASS
          ("Root browse returned " ++ toString nr ++ " items, " ++
           toString tm ++ " total")
          [("items", DetailValue.int items.length),
           ("num_returned", DetailValue.int nr),
           ("total_matches", DetailValue.int tm)] 2 with hst1
        set st2 : SuiteState := { st1 with browsed_items := st1.browsed_items ++ items }
          with hst2
        set st3 := browse_root_checks c items tm st2 with hst3
        have h3b : st3.browsed_items = items := by
          rw [hst3, (browse_root_checks_browsed c items tm st2).1, hst2]
          show st1.browsed_items ++ items = items
          rw [hst1, addResult_browsed, hb0, List.nil_append]
        have h3t : st3.trace = [] := by
          rw [hst3, (browse_root_checks_browsed c items tm st2).2, hst2]
          show st1.trace = []
          rw [hst1, addResult_trace, ht0]
        have h3len : st3.browsed_items.length ≤ P := by
          rw [h3b]
          exact hroot
        split
        · exact ⟨by rw [addResult_browsed, h3b]; omega,
            fun e he => by rw [addResult_trace, h3t] at he; cases he⟩
        · split
          · obtain ⟨hl, ht⟩ := (trav_bound c P hP c.max_depth 1 (by omega)).2
              (items.filter (fun i => i.is_container)) st3
            refine ⟨by rw [addResult_browsed]; omega, ?_⟩
            intro e he
            rw [addResult_trace] at he
            rcases ht e he with h | h
            · rw [h3t] at h
              cases h
            · exact h
          · rename_i subc c0 rest0 hcont hf
            obtain ⟨hl, ht⟩ := (trav_bound c P hP c.max_depth 1 (by omega)).1 c0 st3
            refine ⟨by omega, ?_⟩
            intro e he
            rcases ht e he with h | h
            · rw [h3t] at h
              cases h
            · exact h
  refine ⟨main.1, main.2, ?_, ?_⟩
  · intro hf e he
    have h1 := (main.2 e he).2
    have h2 := hmd.1 hf
    omega
  · intro hf e he
    have h1 := (main.2 e he).2
    have h2 := hmd.2 hf
    omega

/-- Witness for C5 on the cyclic world: the full-scan browsing phase stays
within the budget plus one page. -/
theorem C5_traversal_bounded_witness :
    (run_browsing_tests cycCfg (initSuite cycTester)).browsed_items.length ≤
      cycCfg.max_items + 1 := by
  have hP : ∀ (ts : TesterState) (oid : String) (items : List MediaItem) (nr tm : Int),
      browse cycCfg.world ts oid "BrowseDirectChildren" "*" 0 100 "" =
        some (items, nr, tm) → items.length ≤ 1 := by
    intro ts oid items nr tm h
    obtain ⟨d, cdo, cm, di⟩ := ts
    cases cdo with
    | none => simp [browse] at h
    | some cd =>
      have heval : browse cycCfg.world ⟨d, some cd, cm, di⟩ oid
          "BrowseDirectChildren" "*" 0 100 "" =
          some ([parse_didl_item cycContainerElem true], 1, 1) := rfl
      rw [heval] at h
      simp only [Option.some.injEq, Prod.mk.injEq] at h
      obtain ⟨h1, -⟩ := h
      rw [← h1]
      simp
  exact (C5_traversal_bounded cycCfg (initSuite cycTester) 1 rfl rfl hP).1

/-- When every GET raises, description discovery exhausts its path list. -/
theorem discoverGo_none (w : World) (hget : ∀ u, w.get u = none) :
    ∀ ps, discoverGo w ps = none := by
  intro ps
  induction ps with
  | nil => rfl
  | cons p rest ih => simp [discoverGo, hget, ih]

/-- When every GET raises, fetching the device description of a session with
no discovered URL fails and leaves the session unchanged. -/
theorem fetch_unreach (w : World) (hget : ∀ u, w.get u = none)
    (ts : TesterState) (hurl : ts.device_description_url = none) :
    fetch_device_description w ts none = (none, ts) := by
  have hd : discover_device_description w ts = (none, ts) := by
    unfold discover_device_description
    rw [discoverGo_none w hget]
  unfold fetch_device_description
  rw [hurl, hd]

/-- Connectivity phase against an unreachable server: one FAIL of weight two
and the phase stops. -/
theorem conn_unreach (w : World) (hget : ∀ u, w.get u = none) (st : SuiteState) :
    run_connectivity_tests w st =
      addResult st "HTTP Connection" TestCategory.CONNECTIVITY TestStatus.FAIL
        "Failed to connect" [] 2 := by
  unfold run_connectivity_tests
  rw [hget]

/-- Device-description phase against an unreachable server with no cached
URL: one FAIL of weight two. -/
theorem devdesc_unreach (w : World) (hget : ∀ u, w.get u = none)
    (st : SuiteState) (hurl : st.tester.device_description_url = none) :
    run_device_description_tests w st =
      addResult st "Device Description Parsing" TestCategory.DEVICE_DESCRIPTION
        TestStatus.FAIL "Could not parse device description" [] 2 := by
  unfold run_device_description_tests
  rw [fetch_unreach w hget st.tester hurl]

/-- Content Directory phase with no cached service: one SKIP. -/
theorem cdtests_skip (w : World) (st : SuiteState)
    (hcd : st.tester.content_directory = none) :
    run_content_directory_tests w st =
      addResult st "Content Directory Available" TestCategory.CONTENT_DIRECTORY
        TestStatus.SKIP "ContentDirectory service not available" [] 1 := by
  unfold run_content_directory_tests
  rw [hcd]

/-- Connection Manager phase with no cached service: one SKIP. -/
theorem cmtests_skip (w : World) (st : SuiteState)
    (hcm : st.tester.connection_manager = none) :
    run_connection_manager_tests w st =
      addResult st "Connection Manager Available" TestCategory.CONNECTION_MANAGER
        TestStatus.SKIP "ConnectionManager service not available" [] 1 := by
  unfold run_connection_manager_tests
  rw [hcm]

/-- Browsing phase with no cached ContentDirectory: one SKIP. -/
theorem browsing_skip (c : SuiteCfg) (st : SuiteState)
    (hcd : st.tester.content_directory = none) :
    run_browsing_tests c st =
      addResult st "Browse Root" TestCategory.BROWSING TestStatus.SKIP
        "ContentDirectory not available" [] 1 := by
  unfold run_browsing_tests
  rw [hcd]

/-- Metadata phase with nothing browsed: one SKIP. -/
theorem metadata_skip (st : SuiteState) (hb : st.browsed_items = []) :
    run_metadata_tests st =
      addResult st "Metadata Availability" TestCategory.METADATA TestStatus.SKIP
        "No items available for metadata testing" [] 1 := by
  unfold run_metadata_tests
  rw [if_pos hb]

/-- Media-resource phase with nothing browsed: one SKIP. -/
theorem media_skip (c : SuiteCfg) (st : SuiteState)
    (hb : st.browsed_items = []) :
    run_media_resource_tests c st =
      addResult st "Resource Accessibility" TestCategory.MEDIA_RESOURCES
        TestStatus.SKIP "No media items with resources available for testing"
        [] 1 := by
  unfold run_media_resource_tests
  rw [hb]
  rfl

/-- Protocol-compliance phase with no cached service and no description URL
adds nothing at all. -/
theorem protocol_noop (c : SuiteCfg) (st : SuiteState)
    (hcd : st.tester.content_directory = none)
    (hurl : st.tester.device_description_url = none) :
    run_protocol_compliance_tests c st = st := by
  unfold run_protocol_compliance_tests
  simp only [hcd, hurl]

/-- Claim C2 (amended): in a fresh session against a server on which every
HTTP request fails, the run records exactly two FAIL results, HTTP
Connection and Device Description Parsing, each of weight two, followed by
one SKIP per dependent category; the grade is F and the failure count is at
least one.  In particular the result list does not contain exactly one FAIL:
the later categories still run and the device-description phase records its
own FAIL. -/
theorem C2_unreachable_run (w : World) (fs : Bool) (N : Nat)
    (hget : ∀ u, w.get u = none) :
    ((run_all_tests ⟨w, fs, N⟩ initTester).results.map
      (fun r => (r.name, r.status, r.weight)) =
      [("HTTP Connection", TestStatus.FAIL, 2),
       ("Device Description Parsing", TestStatus.FAIL, 2),
       ("Content Directory Available", TestStatus.SKIP, 1),
       ("Connection Manager Available", TestStatus.SKIP, 1),
       ("Browse Root", TestStatus.SKIP, 1),
       ("Metadata Availability", TestStatus.SKIP, 1),
       ("Resource Accessibility", TestStatus.SKIP, 1)]) ∧
    ((run_all_tests ⟨w, fs, N⟩ initTester).results.filter
      (fun r => r.status = TestStatus.FAIL)).length = 2 ∧
    (get_score (run_all_tests ⟨w, fs, N⟩ initTester).results).2.2 = "F" ∧
    (get_summary (run_all_tests ⟨w, fs, N⟩ initTester).results).failed ≥ 1 := by
  have hrun : run_all_tests ⟨w, fs, N⟩ initTester =
      run_protocol_compliance_tests ⟨w, fs, N⟩
        (addResult
          (addResult
            (addResult
              (addResult
                (addResult
                  (addResult
                    (addResult (initSuite initTester) "HTTP Connection"
                      TestCategory.CONNECTIVITY TestStatus.FAIL
                      "Failed to connect" [] 2)
                  "Device Description Parsing" TestCategory.DEVICE_DESCRIPTION
                  TestStatus.FAIL "Could not parse device description" [] 2)
                "Content Directory Available" TestCategory.CONTENT_DIRECTORY
                TestStatus.SKIP "ContentDirectory service not available" [] 1)
              "Connection Manager Available" TestCategory.CONNECTION_MANAGER
              TestStatus.SKIP "ConnectionManager service not available" [] 1)
              "Browse Root" TestCategory.BROWSING TestStatus.SKIP
              "ContentDirectory not available" [] 1)
            "Metadata Availability" TestCategory.METADATA TestStatus.SKIP
            "No items available for metadata testing" [] 1)
          "Resource Accessibility" TestCategory.MEDIA_RESOURCES TestStatus.SKIP
          "No media items with resources available for testing" [] 1) := by
    unfold run_all_tests
    dsimp only []
    rw [conn_unreach w hget, devdesc_unreach w hget _ rfl, cdtests_skip w _ rfl,
      cmtests_skip w _ rfl, browsing_skip _ _ rfl, metadata_skip _ rfl,
      media_skip _ _ rfl]
  rw [hrun, protocol_noop _ _ rfl rfl]
  refine ⟨by decide, by decide, ?_, by decide⟩
  simp only [get_score, addResult, initSuite, totalScore, maxScore, percentage,
    TestResult.score, List.filter_cons, List.filter_nil, List.map_cons,
    List.map_nil, List.sum_cons, List.sum_nil, List.append_nil, List.nil_append,
    List.cons_append, reduceCtorEq, if_false, if_true, reduceIte]
  norm_num [gradeOf]

/-- Counterexample for C2 as stated: against the concrete unreachable world
the first probe fails, yet the final result list holds two FAIL results,
not exactly one. -/
theorem C2_unreachable_counterexample :
    unreachableWorld.get unreachableWorld.baseUrl = none ∧
    ((run_all_tests unreachCfg initTester).results.filter
      (fun r => r.status = TestStatus.FAIL)).length = 2 ∧
    ¬ ((run_all_tests unreachCfg initTester).results.filter
      (fun r => r.status = TestStatus.FAIL)).length = 1 := by
  unfold unreachCfg
  refine ⟨rfl, (C2_unreachable_run unreachableWorld false 1000 (fun _ => rfl)).2.1, ?_⟩
  rw [(C2_unreachable_run unreachableWorld false 1000 (fun _ => rfl)).2.1]
  decide

/-- Witness for the amended C2 at the concrete unreachable world. -/
theorem C2_unreachable_run_witness :
    (get_score (run_all_tests unreachCfg initTester).results).2.2 = "F" ∧
    (get_summary (run_all_tests unreachCfg initTester).results).failed ≥ 1 :=
  ⟨(C2_unreachable_run unreachableWorld false 1000 (fun _ => rfl)).2.2.1,
   (C2_unreachable_run unreachableWorld false 1000 (fun _ => rfl)).2.2.2⟩
